import Mathlib

/-!
Verification of the ovn-bgp-agent EVPN core against its specification.

Each Python module under `ovn_bgp_agent/drivers/openstack/` that the claims
touch is shallowly embedded below as executable Lean definitions:

* `evpn/vlan_manager.py`  → namespace `VlanManager`
* `evpn/fdb_manager.py`   → namespace `FdbManager`
* `evpn/ovn_helper.py`    → namespaces `OvnEvpnHelper`, `EvpnParse`
* `evpn/net_manager.py`   → namespace `NetManager`
* `utils/frr.py`          → namespace `Frr`
* `ovn_evpn_driver.py`    → namespace `EvpnDriver`

Python dicts become association lists, Python sets become `Finset`,
machine integers become `Int` (Python ints are unbounded; `%` with a
positive modulus agrees with Lean's `Int.emod`), and code that can raise
returns `Except`, with the erroring state carried on the error side so
that statements about "state after a raise" are expressible.  Calls into
external collaborators (the kernel via `linux_net`, OVS via `ovs_vsctl`,
FRR via `vtysh`, the OVN IDL) are driven by explicit oracle parameters
that decide each call's outcome, exactly at the points where the Python
code performs such a call.
-/

namespace VlanManager

/- vlan_manager.py lines 13-14. -/
def VLAN_MIN : Int := 100
def VLAN_MAX : Int := 4094

/-- `VLAN_MAX - VLAN_MIN + 1`, the `vlan_range` local of `_find_free_vlan`. -/
def vlan_range : Int := VLAN_MAX - VLAN_MIN + 1

/-- Association-list lookup, modelling Python `dict` access for
string-keyed dicts. -/
def alookup (k : String) : List (String × Int) → Option Int
  | [] => none
  | (k', v) :: t => if k' = k then some v else alookup k t

/-- Association-list lookup for the reverse (vlan-keyed) dict. -/
def vlookup (k : Int) : List (Int × String) → Option String
  | [] => none
  | (k', v) :: t => if k' = k then some v else vlookup k t

/-- Python `del d[k]` / `d.pop(k)` on a string-keyed dict. -/
def aerase (k : String) (l : List (String × Int)) : List (String × Int) :=
  l.filter (fun p => p.1 ≠ k)

/-- Python `del d[k]` on the vlan-keyed dict. -/
def verase (k : Int) (l : List (Int × String)) : List (Int × String) :=
  l.filter (fun p => p.1 ≠ k)

/-- The mutable state of `VlanManager.__init__` (vlan_manager.py 27-35):
`network_to_vlan`, `vlan_to_network`, `free_pool`, and the three
statistics counters of `self.stats`. -/
structure St where
  network_to_vlan : List (String × Int)
  vlan_to_network : List (Int × String)
  free_pool : Finset Int
  allocations : Nat
  releases : Nat
  conflicts : Nat
deriving DecidableEq

/-- `VlanManager.__init__`: `free_pool = set(range(VLAN_MIN, VLAN_MAX + 1))`,
empty maps, zeroed counters. -/
def initSt : St :=
  { network_to_vlan := []
    vlan_to_network := []
    free_pool := Finset.Icc VLAN_MIN VLAN_MAX
    allocations := 0
    releases := 0
    conflicts := 0 }

/-- `VlanManager._find_free_vlan` (lines 85-96).  `none` models raising
`VlanIdExhausted` (both raise sites).  The loop
`for offset in range(vlan_range)` probing
`((vni + offset) % vlan_range) + VLAN_MIN` is `List.findSome?` over
`List.range`. -/
def probe_slot (pool : Finset Int) (vni : Int) (offset : Nat) : Option Int :=
  let candidate := ((vni + (offset : Int)) % vlan_range) + VLAN_MIN
  if candidate ∈ pool then some candidate else none

def find_free_vlan (s : St) (vni : Int) : Option Int :=
  if s.free_pool = ∅ then none
  else
    (List.range vlan_range.toNat).findSome? (probe_slot s.free_pool vni)

/-- The four mutations at vlan_manager.py 59-62 shared by both branches
of `allocate`, parameterized by whether the conflict counter was bumped
(line 57). -/
def commit (s : St) (network_id : String) (vlan : Int) (conflict : Bool) : St :=
  { s with
    network_to_vlan := (network_id, vlan) :: s.network_to_vlan
    vlan_to_network := (vlan, network_id) :: s.vlan_to_network
    free_pool := s.free_pool.erase vlan
    allocations := s.allocations + 1
    conflicts := if conflict then s.conflicts + 1 else s.conflicts }

/-- `VlanManager.allocate` (lines 37-66).  `Except.error s` models
`VlanIdExhausted` propagating out of `_find_free_vlan`, carrying the
state as it is at the moment of the raise. -/
def allocate (s : St) (network_id : String) (vni : Int) :
    Except St (Int × St) :=
  match alookup network_id s.network_to_vlan with
  | some v => .ok (v, s)
  | none =>
    if VLAN_MIN ≤ vni ∧ vni ≤ VLAN_MAX ∧ vni ∈ s.free_pool then
      .ok (vni, commit s network_id vni false)
    else
      match find_free_vlan s vni with
      | none => .error s
      | some vlan =>
        -- line 53-57: the conflict counter is bumped exactly when the
        -- vni was inside the VLAN range (but its slot was taken).
        let conflict := VLAN_MIN ≤ vni ∧ vni ≤ VLAN_MAX
        .ok (vlan, commit s network_id vlan (decide conflict))

/-- `VlanManager.release` (lines 68-79): no-op when the network holds no
allocation. -/
def release (s : St) (network_id : String) : St :=
  match alookup network_id s.network_to_vlan with
  | none => s
  | some vlan =>
    { s with
      network_to_vlan := aerase network_id s.network_to_vlan
      vlan_to_network := verase vlan s.vlan_to_network
      free_pool := insert vlan s.free_pool
      releases := s.releases + 1 }

/-- `VlanManager.get_vlan` (lines 81-83); reads only. -/
def get_vlan (s : St) (network_id : String) : Option Int :=
  alookup network_id s.network_to_vlan

/-- `VlanManager.cleanup_stale` (lines 108-114): release every tracked
network not in `active_networks` (one linearization of the Python set
iteration; `release` steps commute on disjoint keys). -/
def cleanup_stale (s : St) (active_networks : List String) : St :=
  ((s.network_to_vlan.map Prod.fst).filter
      (fun n => n ∉ active_networks)).foldl release s

/-- States reachable from `initSt` by any sequence of public calls
(`allocate` whether it returns or raises, `release`, `get_vlan` — a pure
read — and `cleanup_stale`). -/
inductive Reachable : St → Prop where
  | init : Reachable initSt
  | alloc_ok {s s' : St} {n : String} {vni v : Int} :
      Reachable s → allocate s n vni = .ok (v, s') → Reachable s'
  | alloc_err {s s' : St} {n : String} {vni : Int} :
      Reachable s → allocate s n vni = .error s' → Reachable s'
  | rel {s : St} {n : String} :
      Reachable s → Reachable (release s n)
  | stale {s : St} {act : List String} :
      Reachable s → Reachable (cleanup_stale s act)

/-- First slot of the probe sequence that lies in the free pool — the
value the claim says `_find_free_vlan` returns. -/
def probe_first (s : St) (vni : Int) : Option Int :=
  (List.range vlan_range.toNat).findSome? (probe_slot s.free_pool vni)

/-- The invariant of claim C4, exactly as the spec words it: the two maps
are mutual inverses, and `|free_pool| + |network_to_vlan|` equals the
range size `VLAN_MAX - VLAN_MIN + 1 = 3995`. -/
def SpecInv (s : St) : Prop :=
  (∀ n v, alookup n s.network_to_vlan = some v ↔
    vlookup v s.vlan_to_network = some n) ∧
  s.free_pool.card + s.network_to_vlan.length = 3995

/-- Strengthened inductive invariant: the spec invariant plus the facts
needed to push it through each operation (free vlans are unmapped and in
range, mapped vlans are in range, network keys are distinct). -/
def Inv (s : St) : Prop :=
  (∀ n v, alookup n s.network_to_vlan = some v →
    vlookup v s.vlan_to_network = some n) ∧
  (∀ v n, vlookup v s.vlan_to_network = some n →
    alookup n s.network_to_vlan = some v) ∧
  s.free_pool.card + s.network_to_vlan.length = 3995 ∧
  (∀ v ∈ s.free_pool, vlookup v s.vlan_to_network = none) ∧
  (∀ v ∈ s.free_pool, VLAN_MIN ≤ v ∧ v ≤ VLAN_MAX) ∧
  (∀ p ∈ s.network_to_vlan, VLAN_MIN ≤ p.2 ∧ p.2 ≤ VLAN_MAX) ∧
  (s.network_to_vlan.map Prod.fst).Nodup

/-- `allocate` repeated `k` times from a given state, collecting the
returned VLANs (claim C9's "calling allocate k times"). -/
def allocateTimes (n : String) (vni : Int) :
    Nat → St → Except St (List Int × St)
  | 0, s => .ok ([], s)
  | k + 1, s =>
    match allocate s n vni with
    | .error s' => .error s'
    | .ok (v, s') =>
      match allocateTimes n vni k s' with
      | .error s'' => .error s''
      | .ok (vs, s'') => .ok (v :: vs, s'')

end VlanManager

namespace EvpnParse

/-- Values produced by Python `json.loads`, restricted to the shapes the
EVPN attribute keys can carry (scalars and arrays; objects never appear
in RT/RD lists and are not needed by any claim). -/
inductive Json where
  | null : Json
  | bool (b : Bool) : Json
  | num (n : Int) : Json
  | str (s : String) : Json
  | arr (elts : List Json) : Json

/-- Whether a decoded JSON value is a list. -/
def Json.isArr : Json → Bool
  | .arr _ => true
  | _ => false

/-- Python `dict.get` over the string-to-string `external_ids` map. -/
def sget (k : String) : List (String × String) → Option String
  | [] => none
  | (k', v) :: t => if k' = k then some v else sget k t

/-- Modelled from the spec: `constants.py` is not part of the provided
sources; the spec's §6 table gives the canonical `external_ids` keys, so
the four key constants (`OVN_EVPN_ROUTE_TARGETS_EXT_ID_KEY` and friends)
are taken verbatim from it. -/
def ROUTE_TARGETS_KEY : String := "neutron_bgpvpn:route_targets"

/-- Modelled from the spec: see `ROUTE_TARGETS_KEY`. -/
def ROUTE_DISTINGUISHERS_KEY : String := "neutron_bgpvpn:rds"

/-- Modelled from the spec: see `ROUTE_TARGETS_KEY`. -/
def IMPORT_TARGETS_KEY : String := "neutron_bgpvpn:import_targets"

/-- Modelled from the spec: see `ROUTE_TARGETS_KEY`. -/
def EXPORT_TARGETS_KEY : String := "neutron_bgpvpn:export_targets"

/-- The shared body of the four parsers (ovn_helper.py 346-434 and the
line-for-line identical `_parse_*` quartet at ovn_evpn_driver.py
1326-1384): absent or falsy (empty) value gives `[]`; a value that
`json.loads` decodes gives the decoded value as-is; a `JSONDecodeError`
gives the singleton `[raw]`.  `loads` is the oracle standing for Python
`json.loads` (`none` = `JSONDecodeError`). -/
def parse_ext_id_list (loads : String → Option Json) (key : String)
    (ext_ids : List (String × String)) : Json :=
  match sget key ext_ids with
  | none => Json.arr []
  | some s =>
    if s = "" then Json.arr []
    else
      match loads s with
      | some j => j
      | none => Json.arr [Json.str s]

/-- `OvnEvpnHelper.parse_route_targets` (ovn_helper.py 346-370). -/
def parse_route_targets (loads : String → Option Json)
    (ext_ids : List (String × String)) : Json :=
  parse_ext_id_list loads ROUTE_TARGETS_KEY ext_ids

/-- `OvnEvpnHelper.parse_route_distinguishers` (ovn_helper.py 372-392). -/
def parse_route_distinguishers (loads : String → Option Json)
    (ext_ids : List (String × String)) : Json :=
  parse_ext_id_list loads ROUTE_DISTINGUISHERS_KEY ext_ids

/-- `OvnEvpnHelper.parse_import_targets` (ovn_helper.py 394-413). -/
def parse_import_targets (loads : String → Option Json)
    (ext_ids : List (String × String)) : Json :=
  parse_ext_id_list loads IMPORT_TARGETS_KEY ext_ids

/-- `OvnEvpnHelper.parse_export_targets` (ovn_helper.py 415-434). -/
def parse_export_targets (loads : String → Option Json)
    (ext_ids : List (String × String)) : Json :=
  parse_ext_id_list loads EXPORT_TARGETS_KEY ext_ids

/-- Python `json.loads` on the concrete strings this development
evaluates: `"123"` is valid JSON (the number 123), a JSON array of
strings decodes to that array, and a bare RT string like `64999:100` is
a `JSONDecodeError`. -/
def jsonLoadsModel (s : String) : Option Json :=
  if s = "123" then some (Json.num 123)
  else if s = "[\"64999:100\", \"64999:200\"]" then
    some (Json.arr [Json.str "64999:100", Json.str "64999:200"])
  else if s = "64999:100" then none
  else none

/-- Concrete `external_ids` used by the C6 witness. -/
def c6ext : List (String × String) :=
  [(ROUTE_TARGETS_KEY, "[\"64999:100\", \"64999:200\"]")]

end EvpnParse

namespace Frr

/-- The `evpn_info` dictionary handed to `frr.vrf_reconfigure` (see
frr.py 297-358 and its defaults at 335-346; every field the add-vrf
template reads). -/
structure EvpnInfo where
  vrf_name : String
  vni : Int
  bgp_as : String
  route_targets : List String
  route_distinguishers : List String
  import_targets : List String
  export_targets : List String
  local_ip : String
  local_pref : Option String

/-- The `rd` line of the template (frr.py 73-77): the first RD when the
list is non-empty, else the `<local_ip>:<vni>` default. -/
def rd_line (e : EvpnInfo) : String :=
  match e.route_distinguishers with
  | rd :: _ => "    rd " ++ rd
  | [] => "    rd " ++ e.local_ip ++ ":" ++ toString e.vni

/-- The import+export pair emitted per route target (frr.py 78-81). -/
def rt_lines (e : EvpnInfo) : List String :=
  e.route_targets.flatMap (fun rt =>
    ["    route-target import " ++ rt,
     "    route-target export " ++ rt])

/-- `default-originate` under `{% if local_pref %}` (frr.py 88-90). -/
def default_originate_lines (e : EvpnInfo) : List String :=
  match e.local_pref with
  | some _ => ["    default-originate"]
  | none => []

/-- The trailing route-map block under `{% if local_pref %}`
(frr.py 93-105). -/
def local_pref_block (e : EvpnInfo) : List String :=
  match e.local_pref with
  | some lp =>
    ["route-map LOCAL_PREF_" ++ e.vrf_name ++ " permit 10",
     " set local-preference " ++ lp,
     "exit",
     "",
     "router bgp " ++ e.bgp_as ++ " vrf " ++ e.vrf_name,
     " address-family ipv4 unicast",
     "  neighbor route-map LOCAL_PREF_" ++ e.vrf_name ++ " in",
     " exit-address-family",
     " address-family ipv6 unicast",
     "  neighbor route-map LOCAL_PREF_" ++ e.vrf_name ++ " in",
     " exit-address-family"]
  | none => []

/-- The content lines of `ADD_VRF_TEMPLATE` (frr.py 54-107) in template
order, as rendered by Jinja2 for a given `evpn_info` and redistribute
set (the set is passed as a list fixing one iteration order).  Lines
holding only Jinja tags produce no content and are omitted; literal
lines are kept verbatim, indentation included. -/
def render_add_vrf (e : EvpnInfo) (redistribute : List String) :
    List String :=
  ["vrf " ++ e.vrf_name,
   "  vni " ++ toString e.vni,
   "exit-vrf",
   "",
   "router bgp " ++ e.bgp_as ++ " vrf " ++ e.vrf_name,
   "  address-family ipv4 unicast"] ++
  redistribute.map (fun r => "    redistribute " ++ r) ++
  ["  exit-address-family",
   "  address-family ipv6 unicast"] ++
  redistribute.map (fun r => "    redistribute " ++ r) ++
  ["  exit-address-family",
   "  address-family l2vpn evpn",
   "    advertise ipv4 unicast",
   "    advertise ipv6 unicast"] ++
  [rd_line e] ++
  rt_lines e ++
  e.export_targets.map (fun rt => "    route-target export " ++ rt) ++
  e.import_targets.map (fun rt => "    route-target import " ++ rt) ++
  default_originate_lines e ++
  ["  exit-address-family", ""] ++
  local_pref_block e

/-- Concrete `evpn_info` used by the C7 witness: no explicit RDs, one
route target, one import-only and one export-only target. -/
def c7info : EvpnInfo :=
  { vrf_name := "vrf-100"
    vni := 100
    bgp_as := "64999"
    route_targets := ["64999:100"]
    route_distinguishers := []
    import_targets := ["64999:300"]
    export_targets := ["64999:200"]
    local_ip := "10.0.0.1"
    local_pref := none }

end Frr

namespace OvnEvpnHelper

/-- Per-attempt outcomes of the two query strategies inside
`_query_ovn_vlan_tag` (ovn_helper.py 115-159): `stratA i` is the
`vlan_tag` list `get_network_name_and_tag` returns on attempt `i`
(`none` = the call raised, which the method catches), `stratB i` is what
`_query_ovs_patch_port_tag` yields on attempt `i` (`none` covers both
"returned None" and "raised", which are handled identically). -/
structure Oracle where
  stratA : Nat → Option (List Int)
  stratB : Nat → Option Int

/-- `OvnEvpnHelper._query_ovn_vlan_tag` on attempt `i`: Strategy A's
first tag when the list is non-empty, otherwise Strategy B. -/
def query_ovn_vlan_tag (o : Oracle) (i : Nat) : Option Int :=
  match o.stratA i with
  | some (t :: _) => some t
  | _ => o.stratB i

/-- ovn_helper.py 95: `max_attempts = 10`. -/
def max_attempts : Nat := 10

/-- The retry loop of `get_ovn_vlan_tag` (ovn_helper.py 96-109), run
from attempt index `attempt` with `fuel` iterations left.  Returns the
found tag (if any) together with the number of `_query_ovn_vlan_tag`
calls and of `time.sleep(1)` calls the loop performed. -/
def retry_loop (o : Oracle) : Nat → Nat → Option Int × Nat × Nat
  | _, 0 => (none, 0, 0)
  | attempt, fuel + 1 =>
    match query_ovn_vlan_tag o attempt with
    | some v => (some v, 1, 0)
    | none =>
      let gap : Nat := if attempt < max_attempts - 1 then 1 else 0
      let r := retry_loop o (attempt + 1) fuel
      (r.1, r.2.1 + 1, r.2.2 + gap)

/-- Result of one `get_ovn_vlan_tag` call: the returned tag or a raised
`PortNotFound` (`Except.error ()`), plus the cache afterwards and the
observable counts of OVN/OVS queries and 1-second sleeps. -/
structure CallResult where
  result : Except Unit Int
  cache : List (String × Int)
  queries : Nat
  sleeps : Nat

/-- `OvnEvpnHelper.get_ovn_vlan_tag` (ovn_helper.py 70-113): cache
check, retry loop, cache fill on success, `PortNotFound` on
exhaustion.  The cache is the `_ovn_vlan_cache` dict. -/
def get_ovn_vlan_tag (cache : List (String × Int)) (network_id : String)
    (o : Oracle) : CallResult :=
  match VlanManager.alookup network_id cache with
  | some v => ⟨.ok v, cache, 0, 0⟩
  | none =>
    match retry_loop o 0 max_attempts with
    | (some v, q, s) => ⟨.ok v, (network_id, v) :: cache, q, s⟩
    | (none, q, s) => ⟨.error (), cache, q, s⟩

end OvnEvpnHelper

namespace VlanManager

/-- Witness for C9 at a concrete state: a pool holding only vlan 200,
three consecutive `allocate` calls all return 200 and stay in the
post-first-call state. -/
def c9s0 : St :=
  { network_to_vlan := []
    vlan_to_network := []
    free_pool := {200}
    allocations := 0
    releases := 0
    conflicts := 0 }

/-- Witness for C10: an exhausted pool with nonzero counters; the raise
returns that very state. -/
def c10s0 : St :=
  { network_to_vlan := []
    vlan_to_network := []
    free_pool := ∅
    allocations := 5
    releases := 6
    conflicts := 7 }

/-- Witness for C3 at a concrete state with a two-element free pool. -/
def c3s0 : St :=
  { network_to_vlan := []
    vlan_to_network := []
    free_pool := {150, 200}
    allocations := 0
    releases := 0
    conflicts := 0 }

end VlanManager

namespace OvnEvpnHelper

/-- The S5 oracle of the spec: both strategies fail on attempts 0-2,
Strategy A returns `[7]` on attempt 3. -/
def s5Oracle : Oracle :=
  { stratA := fun i => if i = 3 then some [7] else none
    stratB := fun _ => none }

end OvnEvpnHelper

namespace FdbManager

/-- Outcome of one `linux_net.add_bridge_fdb` kernel call: success, the
"File exists" error (fdb_manager.py 49 treats it silently), or any
other error (logged). -/
inductive KRes where
  | ok : KRes
  | errExists : KRes
  | errOther : KRes
deriving DecidableEq

/-- The `bridge_fdb_entries` defaultdict: bridge name to its list of
`(mac, vlan)` keys, in append order. -/
abbrev FdbSt := List (String × List (String × Int))

/-- defaultdict read: missing bridges give the empty list. -/
def getd (b : String) : FdbSt → List (String × Int)
  | [] => []
  | (b', es) :: t => if b' = b then es else getd b t

/-- Write a bridge's entry list (in-place update or append). -/
def setd (b : String) (v : List (String × Int)) : FdbSt → FdbSt
  | [] => [(b, v)]
  | (b', es) :: t => if b' = b then (b, v) :: t else (b', es) :: setd b v t

/-- `del self.bridge_fdb_entries[device]` (fdb_manager.py 131-132). -/
def deld (b : String) (m : FdbSt) : FdbSt :=
  m.filter (fun p => p.1 ≠ b)

/-- The shared insert logic of `ensure_fdb_entry` (fdb_manager.py 36-50)
and of each `batch_add_fdb` iteration (84-99): skip when the key is
already recorded; otherwise attempt the kernel insert (the second
component lists the attempted `add_bridge_fdb` calls) and record the
key only when the call raised nothing — on "File exists" the error is
silently ignored and on any other error a warning is logged, but in
both error cases the key is NOT appended. -/
def fdb_insert_step (s : FdbSt) (mac : String) (vlan : Int)
    (bridge : String) (res : KRes) : FdbSt × List (String × Int) :=
  let entries := getd bridge s
  if (mac, vlan) ∈ entries then (s, [])
  else
    match res with
    | .ok => (setd bridge (entries ++ [(mac, vlan)]) s, [(mac, vlan)])
    | _ => (s, [(mac, vlan)])

/-- `FdbManager.ensure_fdb_entry` (fdb_manager.py 25-50); `flag` is
`CONF.evpn_static_fdb`.  The `bridge_port` argument only feeds the
kernel call and never the recorded state, so it is omitted. -/
def ensure_fdb_entry (flag : Bool) (s : FdbSt) (mac : String)
    (vlan : Int) (bridge : String) (res : KRes) :
    FdbSt × List (String × Int) :=
  if flag then fdb_insert_step s mac vlan bridge res else (s, [])

/-- The loop body sequence of `FdbManager.batch_add_fdb`
(fdb_manager.py 84-99), applied to each entry in order. -/
def batch_core (s : FdbSt) (bridge : String) :
    List (String × Int × KRes) → FdbSt × List (String × Int)
  | [] => (s, [])
  | (m, v, r) :: rest =>
    let p := fdb_insert_step s m v bridge r
    let q := batch_core p.1 bridge rest
    (q.1, p.2 ++ q.2)

/-- `FdbManager.batch_add_fdb` (fdb_manager.py 73-102). -/
def batch_add_fdb (flag : Bool) (s : FdbSt)
    (entries : List (String × Int × KRes)) (bridge : String) :
    FdbSt × List (String × Int) :=
  if flag then batch_core s bridge entries else (s, [])

/-- `FdbManager.cleanup_device` (fdb_manager.py 129-134), restricted to
the `bridge_fdb_entries` side the claim is about (the `static_neighbors`
dict is handled identically and independently). -/
def cleanup_device (s : FdbSt) (device : String) : FdbSt :=
  deld device s

/-- One call in a history of FdbManager calls; kernel outcomes ride on
the ops since the kernel is external. -/
inductive Op where
  | ensure (mac : String) (vlan : Int) (bridge : String) (res : KRes) : Op
  | batch (entries : List (String × Int × KRes)) (bridge : String) : Op
  | cleanup (device : String) : Op

/-- State transition of one call. -/
def stepOp (flag : Bool) (s : FdbSt) : Op → FdbSt
  | .ensure m v b r => (ensure_fdb_entry flag s m v b r).1
  | .batch es b => (batch_add_fdb flag s es b).1
  | .cleanup d => cleanup_device s d

/-- The state after a whole call history, from the empty `__init__`
state. -/
def runOps (flag : Bool) (ops : List Op) : FdbSt :=
  ops.foldl (stepOp flag) []

/-- The op performs a kernel FDB insert for key `k` on bridge `b` that
raises nothing. -/
def opHasOkInsert (b : String) (k : String × Int) : Op → Prop
  | .ensure m v b' r => b' = b ∧ (m, v) = k ∧ r = .ok
  | .batch es b' => b' = b ∧ (k.1, k.2, KRes.ok) ∈ es
  | .cleanup _ => False

/-- The op performs a kernel FDB insert for key `k` on bridge `b` that
"completed as a success" in the claim's sense, where an already-exists
error counts as success. -/
def opHasClaimSuccess (b : String) (k : String × Int) : Op → Prop
  | .ensure m v b' r => b' = b ∧ (m, v) = k ∧ (r = .ok ∨ r = .errExists)
  | .batch es b' => b' = b ∧
      ((k.1, k.2, KRes.ok) ∈ es ∨ (k.1, k.2, KRes.errExists) ∈ es)
  | .cleanup _ => False

/-- The op is `cleanup_device` for bridge `b`. -/
def opCleans (b : String) : Op → Prop
  | .cleanup d => d = b
  | _ => False

/-- Some op of the history performs a raising-nothing insert of `k` on
`b` with no later `cleanup_device(b)`. -/
def OkInsertNoLaterCleanup (b : String) (k : String × Int) :
    List Op → Prop
  | [] => False
  | op :: rest =>
    (opHasOkInsert b k op ∧ ∀ o ∈ rest, ¬opCleans b o) ∨
      OkInsertNoLaterCleanup b k rest

/-- Same with the claim's weaker success notion (already-exists counts
as success). -/
def ClaimSuccessNoLaterCleanup (b : String) (k : String × Int) :
    List Op → Prop
  | [] => False
  | op :: rest =>
    (opHasClaimSuccess b k op ∧ ∀ o ∈ rest, ¬opCleans b o) ∨
      ClaimSuccessNoLaterCleanup b k rest

/-- The single-call history refuting C5 as stated: the kernel reports
"File exists". -/
def c5trace : List Op :=
  [Op.ensure "aa:bb:cc:dd:ee:01" 100 "br-evpn" KRes.errExists]

end FdbManager

namespace NetManager

/-- Resource kinds appended to `created_resources`
(net_manager.py 54, 67, 72, 80). -/
inductive RKind where
  | vrf : RKind
  | vxlan : RKind
  | irb : RKind
  | internal_port : RKind
deriving DecidableEq

/-- One `self.vrfs[vrf_name]` record (net_manager.py 56-60). -/
structure VrfInfo where
  table_id : Int
  vni : Int
  networks : List String
deriving DecidableEq

/-- Execution state threaded through `ensure_infrastructure`: the
manager's `self.vrfs`, the kernel's device set and the OVS bridge's
port set (both external observables), the call's local
`created_resources` list, the ghost list of device names the kernel
actually created during this call, and the running index of external
calls (consumed by the failure oracle). -/
structure ExecSt where
  vrfs : List (String × VrfInfo)
  kernel : List String
  ovsPorts : List String
  created : List (RKind × String)
  createdGhost : List String
  callIdx : Nat
deriving DecidableEq

/-- The computation monad: `Except` over the state, with the state at
the moment of the raise carried on the error side (Python state outlives
an exception). -/
def EvpnM (α : Type) : Type := ExecSt → Except ExecSt (α × ExecSt)

instance : Monad EvpnM where
  pure a := fun s => .ok (a, s)
  bind m f := fun s =>
    match m s with
    | .error e => .error e
    | .ok (a, s') => f a s'

def getSt : EvpnM ExecSt := fun s => .ok (s, s)

def modifySt (f : ExecSt → ExecSt) : EvpnM Unit := fun s => .ok ((), f s)

/-- A fallible external call (netlink / ovs-vsctl / vtysh / OVN query):
the oracle decides by call index whether it raises; on success the
effect applies. -/
def extCall (oracle : Nat → Bool) (eff : ExecSt → ExecSt) : EvpnM Unit :=
  fun s =>
    let s' := { s with callIdx := s.callIdx + 1 }
    if oracle s.callIdx then .error s' else .ok ((), eff s')

/-- An external call whose failure the Python code swallows with a
`try`/`except` (e.g. `add_ip_address`, net_manager.py 187-191). -/
def extCallCaught (oracle : Nat → Bool) (eff : ExecSt → ExecSt) :
    EvpnM Unit := fun s =>
  let s' := { s with callIdx := s.callIdx + 1 }
  if oracle s.callIdx then .ok ((), s') else .ok ((), eff s')

/-- A fallible external read that returns part of the state
(`ovs_cmd('list-ports')`, net_manager.py 209). -/
def extRead (oracle : Nat → Bool) (f : ExecSt → α) : EvpnM α :=
  fun s =>
    let s' := { s with callIdx := s.callIdx + 1 }
    if oracle s.callIdx then .error s' else .ok (f s', s')

/-- Effect of a kernel `ensure_*` creation: the named device appears,
and is tracked as created by this call if it did not already exist. -/
def createDev (name : String) (s : ExecSt) : ExecSt :=
  if name ∈ s.kernel then s
  else { s with kernel := name :: s.kernel
                createdGhost := name :: s.createdGhost }

/-- Effect of `ovs_cmd('add-port', ... type=internal)`: the OVS port
plus its kernel netdev appear. -/
def createOvsPort (name : String) (s : ExecSt) : ExecSt :=
  { createDev name s with
      ovsPorts :=
        if name ∈ s.ovsPorts then s.ovsPorts else name :: s.ovsPorts }

/-- `linux_net.delete_device`: best-effort removal. -/
def deleteDev (name : String) (s : ExecSt) : ExecSt :=
  { s with kernel := s.kernel.filter (fun d => d ≠ name) }

/-- `created_resources.append(...)`. -/
def register (r : RKind × String) : EvpnM Unit :=
  modifySt (fun s => { s with created := s.created ++ [r] })

def vrfLookup (k : String) : List (String × VrfInfo) → Option VrfInfo
  | [] => none
  | (k', v) :: t => if k' = k then some v else vrfLookup k t

/-- `self.vrfs[vrf_name]['networks'].append(network_id)`
(net_manager.py 62). -/
def vrfAppend (k : String) (nid : String) :
    List (String × VrfInfo) → List (String × VrfInfo)
  | [] => []
  | (k', v) :: t =>
    if k' = k then (k', { v with networks := v.networks ++ [nid] }) :: t
    else (k', v) :: vrfAppend k nid t

/-- Config values `ensure_infrastructure` reads. -/
structure Conf where
  evpn_bridge : String
  evpn_bridge_veth : String

/-- The fields of `network_info` that drive control flow or resource
names (net_manager.py 34-37, 66, 78-79; the BGP attributes only feed
the single FRR call and the MTU/VTEP only feed kernel call arguments,
which the kernel model does not inspect). -/
structure NetworkInfo where
  id : String
  vlan_id : Int
  vni : Int
  etype : String
deriving DecidableEq

/-- The `add_ip_address` loop over gateway IPs (net_manager.py 185-191),
each failure swallowed. -/
def add_gateway_ips (oracle : Nat → Bool) : List String → EvpnM Unit
  | [] => pure ()
  | _ :: rest => do
    extCallCaught oracle id
    add_gateway_ips oracle rest

/-- The `try` body of `NetManager.ensure_infrastructure`
(net_manager.py 44-87), one monadic action per external call, with
`created_resources.append` placed exactly where the source places it:
after the full multi-call creation of each resource. -/
def ensure_body (conf : Conf) (oracle : Nat → Bool) (net : NetworkInfo)
    (gwIps : List String) : EvpnM Unit := do
  let vrf_name := "vrf-" ++ toString net.vni
  let table_id := net.vni + 1000000
  let vxlan_name := "vxlan-" ++ toString net.vni
  let irb_device := conf.evpn_bridge ++ "." ++ toString net.vlan_id
  let int_port := ("evpn-" ++ toString net.vni).take 15
  -- 1. Create VRF (lines 48-62)
  let s ← getSt
  if (vrfLookup vrf_name s.vrfs).isSome then
    pure ()
  else do
    extCall oracle (createDev vrf_name)          -- ensure_vrf
    extCall oracle id                            -- set_device_status up
    register (RKind.vrf, vrf_name)
    modifySt (fun st => { st with
      vrfs := (vrf_name, ⟨table_id, net.vni, []⟩) :: st.vrfs })
  modifySt (fun st => { st with vrfs := vrfAppend vrf_name net.id st.vrfs })
  -- 2. Create VXLAN (_ensure_vxlan, lines 138-167)
  extCall oracle (createDev vxlan_name)          -- ensure_vxlan
  extCall oracle id                              -- set_link_attribute mtu
  extCall oracle id                              -- set_master_for_device
  extCall oracle id                              -- set_bridge_port_learning
  extCall oracle id                              -- set_bridge_port_neigh_suppress
  extCall oracle id                              -- set_device_status up
  extCall oracle id                              -- ensure_bridge_vlan vxlan
  extCall oracle id                              -- ensure_bridge_vlan veth
  register (RKind.vxlan, vxlan_name)
  -- 3. Create IRB (_ensure_irb, lines 169-193)
  extCall oracle (createDev irb_device)          -- ensure_vlan_device_for_network
  extCall oracle id                              -- set_link_attribute mtu
  extCall oracle id                              -- set_master_for_device vrf
  extCall oracle id                              -- set_device_status up
  extCall oracle id                              -- enable_proxy_arp
  extCall oracle id                              -- enable_proxy_ndp
  -- extract_gateway_ips catches everything internally and returns a list
  add_gateway_ips oracle gwIps                   -- add_ip_address, each caught
  register (RKind.irb, irb_device)
  -- 4. L2 type: Internal Port (_ensure_internal_port, lines 195-232)
  if net.etype = "l2" then do
    extCall oracle id                            -- get_ovn_vlan_tag (may raise PortNotFound)
    let ports ← extRead oracle (fun st => st.ovsPorts)  -- ovs list-ports
    if int_port ∈ ports then
      pure ()
    else
      extCall oracle (createOvsPort int_port)    -- ovs add-port type=internal
    extCall oracle id                            -- ovs set tag
    extCall oracle id                            -- set_device_status up
    extCall oracle id                            -- set_link_attribute mtu
    extCall oracle id                            -- set_master_for_device
    extCall oracle id                            -- ensure_bridge_vlan pvid
    extCall oracle id                            -- set_bridge_port_learning
    register (RKind.internal_port, int_port)
  else
    pure ()
  -- 5. Configure FRR (_configure_frr, lines 258-277)
  extCall oracle id                              -- frr.vrf_reconfigure add-vrf

/-- `NetManager._cleanup_internal_port` (lines 234-256) as invoked from
rollback: detach, OVS del-port, delete the netdev (each best-effort). -/
def cleanup_internal_port (name : String) (s : ExecSt) : ExecSt :=
  { deleteDev name s with
      ovsPorts := s.ovsPorts.filter (fun p => p ≠ name) }

/-- One step of `NetManager._rollback_resources` (lines 279-290); the
kernel deletions are best-effort in the source (failures caught and
logged) and are modeled as succeeding. -/
def rollback_one (s : ExecSt) (r : RKind × String) : ExecSt :=
  match r.1 with
  | RKind.internal_port => cleanup_internal_port r.2 s
  | _ => deleteDev r.2 s

/-- `NetManager._rollback_resources`: walk `created_resources` in
reverse creation order, destroying each. -/
def rollback_resources (s : ExecSt) : ExecSt :=
  s.created.reverse.foldl rollback_one s

/-- `NetManager.ensure_infrastructure` (net_manager.py 27-92): run the
body; on any exception roll back and return `False`, else `True`.  The
per-call locals (`created_resources`, the ghost creation list, the call
counter) are reset on entry. -/
def ensure_infrastructure (conf : Conf) (oracle : Nat → Bool)
    (net : NetworkInfo) (gwIps : List String) (st0 : ExecSt) :
    Bool × ExecSt :=
  let st := { st0 with created := [], createdGhost := [], callIdx := 0 }
  match ensure_body conf oracle net gwIps st with
  | .ok p => (true, p.2)
  | .error s_f => (false, rollback_resources s_f)

/-- Concrete inputs for the C2 counterexample: a fresh L3 network on an
empty host, with the oracle failing the second external call
(`set_device_status(vrf_name, 'up')`, net_manager.py 53) — after the
kernel VRF was created but before it was registered for rollback. -/
def c2conf : Conf := { evpn_bridge := "br-evpn", evpn_bridge_veth := "veth-to-ovs" }

def c2net : NetworkInfo :=
  { id := "net-1", vlan_id := 200, vni := 100, etype := "l3" }

def c2oracle : Nat → Bool := fun i => i = 1

/-- Oracle for the C2 witness: fail the 13th external call (inside the
IRB creation sequence), at which point the VRF and VXLAN are already
registered for rollback. -/
def c2oracleB : Nat → Bool := fun i => i = 12

def c2st0 : ExecSt :=
  { vrfs := [], kernel := [], ovsPorts := [], created := []
    createdGhost := [], callIdx := 0 }

end NetManager

namespace EvpnDriver

/-- Modelled from the spec: `constants.py` is not in the provided
sources; §6 gives the canonical keys `neutron_bgpvpn:vni` and
`neutron_bgpvpn:as` for `OVN_EVPN_VNI_EXT_ID_KEY` and
`OVN_EVPN_AS_EXT_ID_KEY`. -/
def VNI_KEY : String := "neutron_bgpvpn:vni"

/-- Modelled from the spec: see `VNI_KEY`. -/
def AS_KEY : String := "neutron_bgpvpn:as"

/-- An OVN SB `Port_Binding` row as the driver reads it: `datapath` is
`none` when the row's datapath access raises (the `AttributeError`
caught at ovn_evpn_driver.py 274-277), `mac` is the raw
`Port_Binding.mac` list. -/
structure PortBinding where
  logical_port : String
  datapath : Option String
  external_ids : List (String × String)
  mac : List String
deriving DecidableEq

/-- What `_build_network_info` hands to `_sync_port` — the fields
`_sync_port` (ovn_evpn_driver.py 417-458) actually reads. -/
structure BuiltInfo where
  vlan_id : Int
  l2vni : Option Int
  l3vni : Option Int
deriving DecidableEq

/-- Outcomes of the fallible sub-operations of `sync`, each of which
catches all its own exceptions in the source: `dbResult` is the
`db_list_rows` call of `_get_evpn_ports` (its failure is caught at
296-307 and yields `[]`); `buildInfo` is `_build_network_info`
(336-415, catch-all returning `None`); `ensureInfra` is
`_ensure_network_infrastructure` (464-505, catch-all returning
`False`; its kernel and `self.evpn_vrfs` side effects are outside the
`evpn_networks`-focused state here); `fdbRes`/`neighRes` are the
kernel outcomes of `add_bridge_fdb`/`add_ip_nei` inside
`_ensure_fdb_entry`/`_ensure_neighbor_entry` (679-729, caught). -/
structure SyncOracle where
  dbResult : Except Unit (List PortBinding)
  buildInfo : String → PortBinding → Option BuiltInfo
  ensureInfra : String → Bool
  fdbRes : String → Int → FdbManager.KRes
  neighRes : String → String → FdbManager.KRes

/-- The config values `sync` and its helpers read. -/
structure DriverConf where
  evpn_bridge : String
  evpn_bridge_veth : String
  evpn_static_fdb : Bool
  evpn_static_neighbors : Bool

/-- One `self.evpn_ports[logical_port]` record (452-458). -/
structure PortRecord where
  mac : String
  ips : List String
  network_id : String
  vlan_id : Int
deriving DecidableEq

/-- The driver state `sync` touches: the four maps it resets at
257-261 plus `evpn_vrfs`, which `sync` itself never resets (the
abstracted `_ensure_network_infrastructure` is its only writer). -/
structure DriverSt where
  evpn_networks : List (String × BuiltInfo)
  evpn_ports : List (String × PortRecord)
  bridge_fdb_entries : FdbManager.FdbSt
  static_neighbors : List (String × List (String × String))
  evpn_vrfs : List String
deriving DecidableEq

/-- Python truthiness of `network_info.get('l2vni')`: `None` and `0`
are falsy. -/
def otruthy : Option Int → Bool
  | none => false
  | some n => n ≠ 0

/-- Python `s.strip().split()` (split on whitespace runs), for the
space-separated `"MAC IP1 IP2 …"` format. -/
def pysplit (s : String) : List String :=
  (s.splitOn " ").filter (fun w => w ≠ "")

/-- Truthiness filter of `_get_evpn_ports` (301-303): both the VNI and
the AS `external_ids` values present and non-empty. -/
def has_evpn_config (p : PortBinding) : Bool :=
  (match EvpnParse.sget VNI_KEY p.external_ids with
   | some s => s ≠ ""
   | none => false) &&
  (match EvpnParse.sget AS_KEY p.external_ids with
   | some s => s ≠ ""
   | none => false)

/-- `_get_evpn_ports` (292-308): an exception from the row query is
caught and yields the empty list. -/
def get_evpn_ports (o : SyncOracle) : List PortBinding :=
  match o.dbResult with
  | .error _ => []
  | .ok rows => rows.filter has_evpn_config

/-- `networks_with_ports[dp].append(port)` on a defaultdict whose keys
keep first-insertion order. -/
def gappend (dp : String) (p : PortBinding) :
    List (String × List PortBinding) → List (String × List PortBinding)
  | [] => [(dp, [p])]
  | (k, ps) :: t =>
    if k = dp then (k, ps ++ [p]) :: t else (k, ps) :: gappend dp p t

/-- The grouping loop of `sync` (269-277): ports without a datapath are
skipped (their `AttributeError` is caught). -/
def group_by_datapath (ports : List PortBinding) :
    List (String × List PortBinding) :=
  ports.foldl (fun acc p =>
    match p.datapath with
    | none => acc
    | some dp => gappend dp p acc) []

/-- `self.evpn_ports[k] = v`. -/
def pset (k : String) (v : PortRecord) :
    List (String × PortRecord) → List (String × PortRecord)
  | [] => [(k, v)]
  | (k', v') :: t => if k' = k then (k, v) :: t else (k', v') :: pset k v t

def ngetd (b : String) : List (String × List (String × String)) →
    List (String × String)
  | [] => []
  | (b', es) :: t => if b' = b then es else ngetd b t

def nsetd (b : String) (v : List (String × String)) :
    List (String × List (String × String)) →
    List (String × List (String × String))
  | [] => [(b, v)]
  | (b', es) :: t => if b' = b then (b, v) :: t else (b', es) :: nsetd b v t

/-- The driver's `_ensure_fdb_entry` (679-707): same record-only-on-ok
semantics as `FdbManager.ensure_fdb_entry`, on the driver's own
`bridge_fdb_entries` dict keyed by `CONF.evpn_bridge`. -/
def d_ensure_fdb (conf : DriverConf) (o : SyncOracle) (st : DriverSt)
    (mac : String) (vlan : Int) : DriverSt :=
  if conf.evpn_static_fdb then
    let entries := FdbManager.getd conf.evpn_bridge st.bridge_fdb_entries
    if (mac, vlan) ∈ entries then st
    else
      match o.fdbRes mac vlan with
      | .ok => { st with bridge_fdb_entries :=
          (FdbManager.setd conf.evpn_bridge (entries ++ [(mac, vlan)])
            st.bridge_fdb_entries) }
      | _ => st
  else st

/-- The driver's `_ensure_neighbor_entry` (709-729). -/
def d_ensure_neighbor (conf : DriverConf) (o : SyncOracle)
    (st : DriverSt) (ip : String) (mac : String) (irb : String) :
    DriverSt :=
  if conf.evpn_static_neighbors then
    let entries := ngetd irb st.static_neighbors
    if (ip, mac) ∈ entries then st
    else
      match o.neighRes ip mac with
      | .ok => { st with static_neighbors :=
          (nsetd irb (entries ++ [(ip, mac)]) st.static_neighbors) }
      | _ => st
  else st

/-- ovn_evpn_driver.py 442-444: seed the FDB entry when the network has
a (truthy) L2VNI. -/
def seed_fdb (conf : DriverConf) (o : SyncOracle) (st : DriverSt)
    (mac_address : String) (info : BuiltInfo) : DriverSt :=
  if otruthy info.l2vni then
    d_ensure_fdb conf o st mac_address info.vlan_id
  else st

/-- ovn_evpn_driver.py 446-450: seed a static neighbor per IP when the
network has an L3VNI. -/
def seed_neighbors (conf : DriverConf) (o : SyncOracle) (st : DriverSt)
    (mac_address : String) (ip_addresses : List String)
    (info : BuiltInfo) : DriverSt :=
  if info.l3vni.isSome ∧ ip_addresses ≠ [] then
    ip_addresses.foldl
      (fun acc ip => d_ensure_neighbor conf o acc ip mac_address
        (conf.evpn_bridge ++ "." ++ toString info.vlan_id))
      st
  else st

/-- ovn_evpn_driver.py 452-458: track the port. -/
def record_port (st : DriverSt) (lp : String) (mac_address : String)
    (ip_addresses : List String) (network_id : String)
    (info : BuiltInfo) : DriverSt :=
  { st with evpn_ports := (pset lp
      ⟨mac_address, ip_addresses, network_id, info.vlan_id⟩
      st.evpn_ports) }

/-- ovn_evpn_driver.py 428-458 given the parsed `mac_ips` list: return
early when it is empty (`len(mac_ips) < 1`), else seed FDB/neighbors
and track the port. -/
def sync_port_body (conf : DriverConf) (o : SyncOracle) (st : DriverSt)
    (network_id : String) (info : BuiltInfo) (lp : String)
    (mac_ips : List String) : DriverSt :=
  match mac_ips with
  | [] => st
  | mac_address :: ip_addresses =>
    record_port
      (seed_neighbors conf o
        (seed_fdb conf o st mac_address info)
        mac_address ip_addresses info)
      lp mac_address ip_addresses network_id info

/-- `OVNEVPNDriver._sync_port` (417-458). -/
def sync_port (conf : DriverConf) (o : SyncOracle) (st : DriverSt)
    (network_id : String) (info : BuiltInfo) (p : PortBinding) :
    DriverSt :=
  if p.mac = [] ∨ p.mac = ["unknown"] then st
  else
    match p.mac with
    | [] => st
    | m0 :: _ =>
      sync_port_body conf o st network_id info p.logical_port (pysplit m0)

/-- ovn_evpn_driver.py 319-334 given the built info (or `None`): skip
the network on build failure or infrastructure failure, record it and
sync all its ports otherwise.  In one `sync` pass the group keys are
distinct, so the dict insert is an append. -/
def sync_network_body (conf : DriverConf) (o : SyncOracle)
    (st : DriverSt) (nid : String) (ports : List PortBinding)
    (binfo : Option BuiltInfo) : DriverSt :=
  match binfo with
  | none => st
  | some info =>
    if o.ensureInfra nid then
      ports.foldl (fun acc p => sync_port conf o acc nid info p)
        { st with evpn_networks := st.evpn_networks ++ [(nid, info)] }
    else st

/-- `OVNEVPNDriver._sync_network` (310-334): build the network info
from the group's first port, then process. -/
def sync_network (conf : DriverConf) (o : SyncOracle) (st : DriverSt)
    (g : String × List PortBinding) : DriverSt :=
  match g.2 with
  | [] => st
  | p0 :: tail =>
    sync_network_body conf o st g.1 (p0 :: tail) (o.buildInfo g.1 p0)

/-- `_cleanup_orphaned_resources` (735-775) deletes orphaned kernel
devices and FRR VRFs under a catch-all; it reads but never writes the
driver's maps, so on this state it is the identity. -/
def cleanup_orphaned_resources (st : DriverSt) : DriverSt := st

/-- `OVNEVPNDriver.sync` (247-290): reset the four tracking maps,
query and filter the rows, group by datapath, sync each group, clean
orphans.  There is no snapshot of the old `evpn_networks`, no
`try`/`except` and no re-raise in the source body; every sub-operation
contains its own failures, which is why the result type's error case
is never produced. -/
def sync (conf : DriverConf) (st : DriverSt) (o : SyncOracle) :
    Except Unit DriverSt :=
  let st1 := { st with
    evpn_networks := []
    evpn_ports := []
    bridge_fdb_entries := []
    static_neighbors := [] }
  let evpnPorts := get_evpn_ports o
  let groups := group_by_datapath evpnPorts
  let st2 := groups.foldl (sync_network conf o) st1
  .ok (cleanup_orphaned_resources st2)

/-- The networks a sync pass rebuilds, as a pure function of the query
outcome: one entry per datapath group whose info builds and whose
infrastructure call succeeds. -/
def rebuilt_body (o : SyncOracle) (nid : String)
    (binfo : Option BuiltInfo) : List (String × BuiltInfo) :=
  match binfo with
  | none => []
  | some info => if o.ensureInfra nid then [(nid, info)] else []

def rebuilt_group (o : SyncOracle) (g : String × List PortBinding) :
    List (String × BuiltInfo) :=
  match g.2 with
  | [] => []
  | p0 :: _ => rebuilt_body o g.1 (o.buildInfo g.1 p0)

def sync_rebuilt (o : SyncOracle) : List (String × BuiltInfo) :=
  (group_by_datapath (get_evpn_ports o)).flatMap (rebuilt_group o)

/-- Concrete inputs for the C1 counterexample: one tracked network
before the sync, and a sync whose database query raises. -/
def c1conf : DriverConf :=
  { evpn_bridge := "br-evpn", evpn_bridge_veth := "veth-to-ovs"
    evpn_static_fdb := true, evpn_static_neighbors := true }

def c1st : DriverSt :=
  { evpn_networks := [("net-old", ⟨200, none, some 100⟩)]
    evpn_ports := [], bridge_fdb_entries := []
    static_neighbors := [], evpn_vrfs := ["vrf-100"] }

def c1oracle : SyncOracle :=
  { dbResult := .error ()
    buildInfo := fun _ _ => none
    ensureInfra := fun _ => false
    fdbRes := fun _ _ => .ok
    neighRes := fun _ _ => .ok }

end EvpnDriver

-- ======================================================================
-- THEOREMS
-- ======================================================================

namespace VlanManager

theorem aerase_cons (k : String) (p : String × Int) (t : List (String × Int)) :
    aerase k (p :: t) = if p.1 = k then aerase k t else p :: aerase k t := by
  by_cases h : p.1 = k <;> simp [aerase, List.filter_cons, h]

theorem verase_cons (k : Int) (p : Int × String) (t : List (Int × String)) :
    verase k (p :: t) = if p.1 = k then verase k t else p :: verase k t := by
  by_cases h : p.1 = k <;> simp [verase, List.filter_cons, h]

theorem alookup_cons (k : String) (p : String × Int) (t : List (String × Int)) :
    alookup k (p :: t) = if p.1 = k then some p.2 else alookup k t := by
  obtain ⟨a, b⟩ := p; rfl

theorem vlookup_cons (k : Int) (p : Int × String) (t : List (Int × String)) :
    vlookup k (p :: t) = if p.1 = k then some p.2 else vlookup k t := by
  obtain ⟨a, b⟩ := p; rfl

theorem alookup_eq_none {k : String} {l : List (String × Int)} :
    alookup k l = none ↔ k ∉ l.map Prod.fst := by
  induction l with
  | nil => simp [alookup]
  | cons p t ih =>
    rw [alookup_cons]
    simp only [List.map_cons, List.mem_cons]
    by_cases h : p.1 = k
    · simp [h]
    · rw [if_neg h, ih]
      constructor
      · intro hk hc
        cases hc with
        | inl hc => exact h hc.symm
        | inr hc => exact hk hc
      · intro hk hc
        exact hk (Or.inr hc)

theorem alookup_mem {k : String} {v : Int} {l : List (String × Int)}
    (h : alookup k l = some v) : (k, v) ∈ l := by
  induction l with
  | nil => simp [alookup] at h
  | cons p t ih =>
    obtain ⟨k', v'⟩ := p
    by_cases hk : k' = k
    · simp only [alookup, if_pos hk] at h
      subst hk
      rw [← Option.some_inj.mp h]
      exact List.mem_cons_self _ _
    · simp only [alookup, if_neg hk] at h
      exact List.mem_cons_of_mem _ (ih h)

theorem vlookup_eq_none {k : Int} {l : List (Int × String)} :
    vlookup k l = none ↔ k ∉ l.map Prod.fst := by
  induction l with
  | nil => simp [vlookup]
  | cons p t ih =>
    rw [vlookup_cons]
    simp only [List.map_cons, List.mem_cons]
    by_cases h : p.1 = k
    · simp [h]
    · rw [if_neg h, ih]
      constructor
      · intro hk hc
        cases hc with
        | inl hc => exact h hc.symm
        | inr hc => exact hk hc
      · intro hk hc
        exact hk (Or.inr hc)

theorem aerase_lookup_self {k : String} {l : List (String × Int)} :
    alookup k (aerase k l) = none := by
  induction l with
  | nil => rfl
  | cons p t ih =>
    rw [aerase_cons]
    by_cases h : p.1 = k
    · simpa [h] using ih
    · simpa [alookup, h] using ih

theorem aerase_lookup_ne {k k' : String} {l : List (String × Int)}
    (hne : k ≠ k') : alookup k (aerase k' l) = alookup k l := by
  induction l with
  | nil => rfl
  | cons p t ih =>
    rw [aerase_cons, alookup_cons]
    by_cases h : p.1 = k'
    · have h2 : p.1 ≠ k := by rw [h]; exact fun hc => hne hc.symm
      rw [if_pos h, if_neg h2, ih]
    · rw [if_neg h, alookup_cons, ih]

theorem verase_lookup_self {k : Int} {l : List (Int × String)} :
    vlookup k (verase k l) = none := by
  induction l with
  | nil => rfl
  | cons p t ih =>
    rw [verase_cons]
    by_cases h : p.1 = k
    · simpa [h] using ih
    · simpa [vlookup, h] using ih

theorem verase_lookup_ne {k k' : Int} {l : List (Int × String)}
    (hne : k ≠ k') : vlookup k (verase k' l) = vlookup k l := by
  induction l with
  | nil => rfl
  | cons p t ih =>
    rw [verase_cons, vlookup_cons]
    by_cases h : p.1 = k'
    · have h2 : p.1 ≠ k := by rw [h]; exact fun hc => hne hc.symm
      rw [if_pos h, if_neg h2, ih]
    · rw [if_neg h, vlookup_cons, ih]

theorem aerase_eq_self {k : String} {l : List (String × Int)}
    (h : k ∉ l.map Prod.fst) : aerase k l = l := by
  induction l with
  | nil => rfl
  | cons p t ih =>
    simp only [List.map_cons, List.mem_cons] at h
    push_neg at h
    rw [aerase_cons, if_neg (fun hc => h.1 hc.symm), ih h.2]

theorem length_aerase {k : String} {v : Int} {l : List (String × Int)}
    (hnd : (l.map Prod.fst).Nodup) (h : alookup k l = some v) :
    (aerase k l).length + 1 = l.length := by
  induction l with
  | nil => simp [alookup] at h
  | cons p t ih =>
    obtain ⟨k', v'⟩ := p
    simp only [List.map_cons, List.nodup_cons] at hnd
    rw [aerase_cons]
    by_cases hk : k' = k
    · subst hk
      rw [if_pos rfl, aerase_eq_self hnd.1]
      simp
    · simp only [alookup, if_neg hk] at h
      simp only [if_neg hk, List.length_cons]
      rw [← ih hnd.2 h]

theorem nodup_keys_aerase {k : String} {l : List (String × Int)}
    (hnd : (l.map Prod.fst).Nodup) :
    ((aerase k l).map Prod.fst).Nodup :=
  List.Nodup.sublist (List.Sublist.map Prod.fst (List.filter_sublist l)) hnd

theorem mem_of_mem_aerase {k : String} {p : String × Int}
    {l : List (String × Int)} (h : p ∈ aerase k l) : p ∈ l :=
  List.mem_of_mem_filter h

/-- A successful probe returns an element of the free pool. -/
theorem find_free_vlan_mem {s : St} {vni c : Int}
    (h : find_free_vlan s vni = some c) : c ∈ s.free_pool := by
  unfold find_free_vlan at h
  by_cases hp : s.free_pool = ∅
  · simp [hp] at h
  · simp only [if_neg hp] at h
    obtain ⟨a, -, ha⟩ := List.exists_of_findSome?_eq_some h
    unfold probe_slot at ha
    by_cases hc : ((vni + (a : Int)) % vlan_range) + VLAN_MIN ∈ s.free_pool
    · simp only [if_pos hc] at ha
      rw [← Option.some_inj.mp ha]
      exact hc
    · simp [hc] at ha

/-- The `commit` half of `allocate` preserves the full invariant as long
as the network is fresh and the assigned vlan comes from the free pool —
which both `allocate` branches guarantee. -/
theorem inv_commit {s : St} {n : String} {vl : Int} {conflict : Bool}
    (hInv : Inv s) (hn : alookup n s.network_to_vlan = none)
    (hvl : vl ∈ s.free_pool) : Inv (commit s n vl conflict) := by
  obtain ⟨inv1, inv2, hcard, hdisj, hpoolR, hvalR, hnd⟩ := hInv
  refine ⟨?_, ?_, ?_, ?_, ?_, ?_, ?_⟩
  · intro n₀ v₀ h
    rw [show (commit s n vl conflict).network_to_vlan
        = (n, vl) :: s.network_to_vlan from rfl, alookup_cons] at h
    rw [show (commit s n vl conflict).vlan_to_network
        = (vl, n) :: s.vlan_to_network from rfl, vlookup_cons]
    by_cases hn₀ : n = n₀
    · rw [if_pos hn₀] at h
      have hv : v₀ = vl := (Option.some_inj.mp h).symm
      subst hv
      simpa using hn₀
    · rw [if_neg hn₀] at h
      have hprev := inv1 _ _ h
      have hne : vl ≠ v₀ := by
        intro hc
        subst hc
        rw [hdisj vl hvl] at hprev
        exact Option.noConfusion hprev
      simpa [hne] using hprev
  · intro v₀ n₀ h
    rw [show (commit s n vl conflict).vlan_to_network
        = (vl, n) :: s.vlan_to_network from rfl, vlookup_cons] at h
    rw [show (commit s n vl conflict).network_to_vlan
        = (n, vl) :: s.network_to_vlan from rfl, alookup_cons]
    by_cases hv₀ : vl = v₀
    · rw [if_pos hv₀] at h
      have : n₀ = n := (Option.some_inj.mp h).symm
      subst this
      simpa using hv₀
    · rw [if_neg hv₀] at h
      have hprev := inv2 _ _ h
      have hne : n ≠ n₀ := by
        intro hc
        subst hc
        rw [hn] at hprev
        exact Option.noConfusion hprev
      simpa [hne] using hprev
  · have h1 : (s.free_pool.erase vl).card = s.free_pool.card - 1 :=
      Finset.card_erase_of_mem hvl
    have h2 : 1 ≤ s.free_pool.card := Finset.card_pos.mpr ⟨vl, hvl⟩
    simp only [commit, h1, List.length_cons]
    omega
  · intro v hv
    have hv' := Finset.mem_erase.mp hv
    rw [show (commit s n vl conflict).vlan_to_network
        = (vl, n) :: s.vlan_to_network from rfl, vlookup_cons]
    rw [if_neg (fun hc => hv'.1 hc.symm)]
    exact hdisj v hv'.2
  · intro v hv
    exact hpoolR v (Finset.mem_of_mem_erase hv)
  · intro p hp
    rcases List.mem_cons.mp hp with hp | hp
    · subst hp
      exact hpoolR vl hvl
    · exact hvalR p hp
  · refine List.nodup_cons.mpr ⟨?_, hnd⟩
    exact alookup_eq_none.mp hn

/-- `release` preserves the full invariant. -/
theorem inv_release {s : St} {n : String} (hInv : Inv s) :
    Inv (release s n) := by
  obtain ⟨inv1, inv2, hcard, hdisj, hpoolR, hvalR, hnd⟩ := hInv
  unfold release
  cases ha : alookup n s.network_to_vlan with
  | none => exact ⟨inv1, inv2, hcard, hdisj, hpoolR, hvalR, hnd⟩
  | some vl =>
    have hvn : vlookup vl s.vlan_to_network = some n := inv1 _ _ ha
    have hvl_not_free : vl ∉ s.free_pool := by
      intro hc
      rw [hdisj vl hc] at hvn
      exact Option.noConfusion hvn
    refine ⟨?_, ?_, ?_, ?_, ?_, ?_, ?_⟩
    · intro n₀ v₀ h
      by_cases hn₀ : n₀ = n
      · subst hn₀
        rw [aerase_lookup_self] at h
        exact absurd h (by simp)
      · rw [aerase_lookup_ne hn₀] at h
        have hprev := inv1 _ _ h
        have hv₀ : v₀ ≠ vl := by
          intro hc
          subst hc
          rw [hvn] at hprev
          exact hn₀ (Option.some_inj.mp hprev).symm
        rw [verase_lookup_ne hv₀]
        exact hprev
    · intro v₀ n₀ h
      by_cases hv₀ : v₀ = vl
      · subst hv₀
        rw [verase_lookup_self] at h
        exact absurd h (by simp)
      · rw [verase_lookup_ne hv₀] at h
        have hprev := inv2 _ _ h
        have hn₀ : n₀ ≠ n := by
          intro hc
          subst hc
          rw [ha] at hprev
          exact hv₀ (Option.some_inj.mp hprev).symm
        rw [aerase_lookup_ne hn₀]
        exact hprev
    · have h1 : (insert vl s.free_pool).card = s.free_pool.card + 1 :=
        Finset.card_insert_of_not_mem hvl_not_free
    -- the erased pair is counted exactly once thanks to key nodup
      have h2 := length_aerase hnd ha
      simp only [h1]
      omega
    · intro v hv
      rcases Finset.mem_insert.mp hv with hv | hv
      · subst hv
        exact verase_lookup_self
      · by_cases hveq : v = vl
        · subst hveq
          exact verase_lookup_self
        · rw [verase_lookup_ne hveq]
          exact hdisj v hv
    · intro v hv
      rcases Finset.mem_insert.mp hv with hv | hv
      · rw [hv]
        exact hvalR (n, vl) (alookup_mem ha)
      · exact hpoolR v hv
    · intro p hp
      exact hvalR p (mem_of_mem_aerase hp)
    · exact nodup_keys_aerase hnd

/-- Any outcome of `allocate` (returning or raising) preserves the
invariant. -/
theorem inv_allocate {s : St} {n : String} {vni : Int} (hInv : Inv s) :
    (∀ v s', allocate s n vni = .ok (v, s') → Inv s') ∧
    (∀ s', allocate s n vni = .error s' → Inv s') := by
  constructor
  · intro v s' h
    unfold allocate at h
    cases ha : alookup n s.network_to_vlan with
    | some w =>
      rw [ha] at h
      obtain ⟨-, h2⟩ := Prod.mk.injEq .. ▸ (Except.ok.injEq .. ▸ h)
      exact h2 ▸ hInv
    | none =>
      rw [ha] at h
      by_cases hd : VLAN_MIN ≤ vni ∧ vni ≤ VLAN_MAX ∧ vni ∈ s.free_pool
      · rw [if_pos hd] at h
        obtain ⟨-, h2⟩ := Prod.mk.injEq .. ▸ (Except.ok.injEq .. ▸ h)
        exact h2 ▸ inv_commit hInv ha hd.2.2
      · rw [if_neg hd] at h
        cases hf : find_free_vlan s vni with
        | none => rw [hf] at h; exact absurd h (by simp)
        | some c =>
          rw [hf] at h
          simp only [Except.ok.injEq, Prod.mk.injEq] at h
          exact h.2 ▸ inv_commit hInv ha (find_free_vlan_mem hf)
  · intro s' h
    unfold allocate at h
    cases ha : alookup n s.network_to_vlan with
    | some w => rw [ha] at h; exact absurd h (by simp)
    | none =>
      rw [ha] at h
      by_cases hd : VLAN_MIN ≤ vni ∧ vni ≤ VLAN_MAX ∧ vni ∈ s.free_pool
      · rw [if_pos hd] at h; exact absurd h (by simp)
      · rw [if_neg hd] at h
        cases hf : find_free_vlan s vni with
        | none =>
          rw [hf] at h
          simp only [Except.error.injEq] at h
          exact h ▸ hInv
        | some c => rw [hf] at h; exact absurd h (by simp)

/-- `cleanup_stale` is a fold of `release`s, so it preserves the
invariant. -/
theorem inv_cleanup_stale {s : St} {act : List String} (hInv : Inv s) :
    Inv (cleanup_stale s act) := by
  unfold cleanup_stale
  generalize (s.network_to_vlan.map Prod.fst).filter
    (fun n => n ∉ act) = l
  induction l generalizing s with
  | nil => exact hInv
  | cons a t ih => exact ih (inv_release hInv)

theorem inv_init : Inv initSt := by
  refine ⟨?_, ?_, ?_, ?_, ?_, ?_, ?_⟩
  · intro n v h
    exact absurd h (by simp [alookup])
  · intro v n h
    exact absurd h (by simp [vlookup])
  · simp only [initSt, List.length_nil]
    rw [Int.card_Icc]
    norm_num [VLAN_MAX, VLAN_MIN]
    rfl
  · intro v _
    rfl
  · intro v hv
    exact Finset.mem_Icc.mp hv
  · intro p hp
    exact absurd hp (by simp [initSt])
  · simp [initSt]

/-- Every reachable state satisfies the full invariant. -/
theorem reachable_inv {s : St} (h : Reachable s) : Inv s := by
  induction h with
  | init => exact inv_init
  | alloc_ok hr heq ih => exact (inv_allocate ih).1 _ _ heq
  | alloc_err hr heq ih => exact (inv_allocate ih).2 _ heq
  | rel hr ih => exact inv_release ih
  | stale hr ih => exact inv_cleanup_stale ih

theorem vlan_range_eq : vlan_range = 3995 := by
  norm_num [vlan_range, VLAN_MAX, VLAN_MIN]

/-- After a successful `allocate`, the returned vlan is recorded for the
network in the resulting state. -/
theorem allocate_ok_lookup {s s' : St} {n : String} {vni v : Int}
    (h : allocate s n vni = .ok (v, s')) :
    alookup n s'.network_to_vlan = some v := by
  unfold allocate at h
  cases ha : alookup n s.network_to_vlan with
  | some w =>
    rw [ha] at h
    simp only [Except.ok.injEq, Prod.mk.injEq] at h
    rw [← h.2, ← h.1]
    exact ha
  | none =>
    rw [ha] at h
    by_cases hd : VLAN_MIN ≤ vni ∧ vni ≤ VLAN_MAX ∧ vni ∈ s.free_pool
    · rw [if_pos hd] at h
      simp only [Except.ok.injEq, Prod.mk.injEq] at h
      rw [← h.2, ← h.1]
      simp [commit, alookup_cons]
    · rw [if_neg hd] at h
      cases hf : find_free_vlan s vni with
      | none => rw [hf] at h; exact absurd h (by simp)
      | some c =>
        rw [hf] at h
        simp only [Except.ok.injEq, Prod.mk.injEq] at h
        rw [← h.2, ← h.1]
        simp [commit, alookup_cons]

/-- A network already recorded in the map is returned as-is, with no
state change (the early return at vlan_manager.py 44-45). -/
theorem allocate_cached {s : St} {n : String} {vni v : Int}
    (h : alookup n s.network_to_vlan = some v) :
    allocate s n vni = .ok (v, s) := by
  unfold allocate
  rw [h]

theorem allocateTimes_cached {s : St} {n : String} {vni v : Int}
    (h : alookup n s.network_to_vlan = some v) :
    ∀ k, allocateTimes n vni k s = .ok (List.replicate k v, s) := by
  intro k
  induction k with
  | zero => rfl
  | succ k ih =>
    show (match allocate s n vni with
      | Except.error s' => Except.error s'
      | Except.ok (v, s') =>
        match allocateTimes n vni k s' with
        | Except.error s'' => Except.error s''
        | Except.ok (vs, s'') => Except.ok (v :: vs, s'')) =
      Except.ok (List.replicate (k + 1) v, s)
    rw [allocate_cached h]
    show (match allocateTimes n vni k s with
      | Except.error s'' => Except.error s''
      | Except.ok (vs, s'') => Except.ok (v :: vs, s'')) =
      Except.ok (List.replicate (k + 1) v, s)
    rw [ih]
    rfl

end VlanManager

namespace VlanManager

/-- Claim C9: `allocate` is idempotent — once
`allocate s n vni = ok (v, s₁)`, calling it `k` further times keeps
returning `v` and never moves the state away from `s₁` (maps, free pool
and statistics counters included, since the whole state `s₁` is
preserved). -/
theorem allocate_idempotent {s s₁ : St} {n : String} {vni v : Int}
    (h : allocate s n vni = .ok (v, s₁)) (k : Nat) :
    allocateTimes n vni (k + 1) s = .ok (List.replicate (k + 1) v, s₁) := by
  have hl : alookup n s₁.network_to_vlan = some v := allocate_ok_lookup h
  show (match allocate s n vni with
    | Except.error s' => Except.error s'
    | Except.ok (v, s') =>
      match allocateTimes n vni k s' with
      | Except.error s'' => Except.error s''
      | Except.ok (vs, s'') => Except.ok (v :: vs, s'')) =
    Except.ok (List.replicate (k + 1) v, s₁)
  rw [h]
  show (match allocateTimes n vni k s₁ with
    | Except.error s'' => Except.error s''
    | Except.ok (vs, s'') => Except.ok (v :: vs, s'')) =
    Except.ok (List.replicate (k + 1) v, s₁)
  rw [allocateTimes_cached hl k]
  rfl

theorem allocate_idempotent_witness :
    allocateTimes "net1" 200 (2 + 1) c9s0 =
      .ok (List.replicate 3 200, commit c9s0 "net1" 200 false) :=
  @allocate_idempotent c9s0 (commit c9s0 "net1" 200 false) "net1" 200 200
    rfl 2

/-- Claim C10: when `allocate` raises `VlanIdExhausted`, the state at the
moment of the raise is exactly the pre-call state — both maps, the free
pool and all three statistics counters are untouched, because the raise
happens inside `_find_free_vlan` before any mutation of line 59-62. -/
theorem allocate_exhausted_state_unchanged {s s' : St} {n : String}
    {vni : Int} (h : allocate s n vni = .error s') : s' = s := by
  unfold allocate at h
  cases ha : alookup n s.network_to_vlan with
  | some w => rw [ha] at h; exact absurd h (by simp)
  | none =>
    rw [ha] at h
    by_cases hd : VLAN_MIN ≤ vni ∧ vni ≤ VLAN_MAX ∧ vni ∈ s.free_pool
    · rw [if_pos hd] at h; exact absurd h (by simp)
    · rw [if_neg hd] at h
      cases hf : find_free_vlan s vni with
      | none =>
        rw [hf] at h
        exact (Except.error.injEq .. ▸ h).symm
      | some c => rw [hf] at h; exact absurd h (by simp)

theorem allocate_exhausted_state_unchanged_witness :
    allocate c10s0 "net1" 200 = .error c10s0 ∧ c10s0 = c10s0 :=
  ⟨rfl, @allocate_exhausted_state_unchanged c10s0 c10s0 "net1" 200 rfl⟩

end VlanManager

namespace VlanManager

/-- Claim C4: in every reachable `VlanManager` state the two maps are
mutual inverses — hence no two tracked networks share a bridge VLAN —
and `|free_pool| + |network_to_vlan| = VLAN_MAX - VLAN_MIN + 1 = 3995`. -/
theorem vlan_maps_mutual_inverse_and_conserved {s : St}
    (h : Reachable s) :
    SpecInv s ∧
    (∀ a b v, alookup a s.network_to_vlan = some v →
      alookup b s.network_to_vlan = some v → a = b) := by
  obtain ⟨inv1, inv2, hcard, -, -, -, -⟩ := reachable_inv h
  refine ⟨⟨fun n v => ⟨inv1 n v, inv2 v n⟩, hcard⟩, ?_⟩
  intro a b v ha hb
  have h1 := inv1 _ _ ha
  have h2 := inv1 _ _ hb
  rw [h1] at h2
  exact Option.some_inj.mp h2

theorem vlan_maps_mutual_inverse_and_conserved_witness :
    SpecInv initSt ∧
    (∀ a b v, alookup a initSt.network_to_vlan = some v →
      alookup b initSt.network_to_vlan = some v → a = b) :=
  vlan_maps_mutual_inverse_and_conserved Reachable.init

end VlanManager

namespace VlanManager

/-- Claim C3: for a fresh network (well-formed pool): if the vni lies in
`[VLAN_MIN, VLAN_MAX]` and is free it is returned verbatim; otherwise the
returned vlan is the first free slot of the probe sequence
`((vni + k) % range) + VLAN_MIN`; and `VlanIdExhausted` is raised exactly
when no free vlan exists in the range. -/
theorem allocate_prefer_probe_exhaust (s : St) (n : String) (vni : Int)
    (hn : alookup n s.network_to_vlan = none) :
    ((VLAN_MIN ≤ vni ∧ vni ≤ VLAN_MAX ∧ vni ∈ s.free_pool) →
        ∃ s', allocate s n vni = .ok (vni, s')) ∧
    (¬(VLAN_MIN ≤ vni ∧ vni ≤ VLAN_MAX ∧ vni ∈ s.free_pool) →
        ∀ v s', allocate s n vni = .ok (v, s') →
          probe_first s vni = some v) ∧
    ((∃ s', allocate s n vni = .error s') ↔
        ∀ v, VLAN_MIN ≤ v → v ≤ VLAN_MAX → v ∉ s.free_pool) := by
  have hR := vlan_range_eq
  have hMin : VLAN_MIN = 100 := rfl
  have hMax : VLAN_MAX = 4094 := rfl
  refine ⟨?_, ?_, ?_, ?_⟩
  · intro hd
    refine ⟨commit s n vni false, ?_⟩
    unfold allocate
    rw [hn, if_pos hd]
  · intro hd v s' h
    unfold allocate at h
    rw [hn, if_neg hd] at h
    cases hf : find_free_vlan s vni with
    | none => rw [hf] at h; exact absurd h (by simp)
    | some c =>
      rw [hf] at h
      simp only [Except.ok.injEq, Prod.mk.injEq] at h
      unfold find_free_vlan at hf
      by_cases hp : s.free_pool = ∅
      · rw [if_pos hp] at hf; exact absurd hf (by simp)
      · rw [if_neg hp] at hf
        rw [← h.1]
        exact hf
  · rintro ⟨s', h⟩ v hv1 hv2 hvmem
    unfold allocate at h
    rw [hn] at h
    by_cases hd : VLAN_MIN ≤ vni ∧ vni ≤ VLAN_MAX ∧ vni ∈ s.free_pool
    · rw [if_pos hd] at h; exact absurd h (by simp)
    · rw [if_neg hd] at h
      cases hf : find_free_vlan s vni with
      | some c => rw [hf] at h; exact absurd h (by simp)
      | none =>
        unfold find_free_vlan at hf
        by_cases hp : s.free_pool = ∅
        · rw [hp] at hvmem
          exact absurd hvmem (Finset.not_mem_empty v)
        · rw [if_neg hp] at hf
          have hall := List.findSome?_eq_none_iff.mp hf
          have hx0 : (0 : Int) ≤ (v - VLAN_MIN - vni) % vlan_range := by
            apply Int.emod_nonneg
            rw [hR]; norm_num
          have hxlt : (v - VLAN_MIN - vni) % vlan_range < vlan_range := by
            apply Int.emod_lt_of_pos
            rw [hR]; norm_num
          have hmem : ((v - VLAN_MIN - vni) % vlan_range).toNat ∈
              List.range vlan_range.toNat := by
            rw [List.mem_range]
            omega
          have happ := hall _ hmem
          unfold probe_slot at happ
          simp only at happ
          have hcast : ((((v - VLAN_MIN - vni) % vlan_range).toNat : Int))
              = (v - VLAN_MIN - vni) % vlan_range := Int.toNat_of_nonneg hx0
          rw [hcast] at happ
          rw [hMin] at hv1
          rw [hMax] at hv2
          have hcand : ((vni + (v - VLAN_MIN - vni) % vlan_range)
              % vlan_range) + VLAN_MIN = v := by
            rw [hR, hMin]
            omega
          rw [hcand] at happ
          rw [if_pos hvmem] at happ
          exact absurd happ (by simp)
  · intro hall
    refine ⟨s, ?_⟩
    unfold allocate
    rw [hn]
    have hd : ¬(VLAN_MIN ≤ vni ∧ vni ≤ VLAN_MAX ∧ vni ∈ s.free_pool) := by
      rintro ⟨h1, h2, h3⟩
      exact hall vni h1 h2 h3
    rw [if_neg hd]
    have hf : find_free_vlan s vni = none := by
      unfold find_free_vlan
      by_cases hp : s.free_pool = ∅
      · rw [if_pos hp]
      · rw [if_neg hp]
        apply List.findSome?_eq_none_iff.mpr
        intro offset hoff
        unfold probe_slot
        simp only
        have hb0 : (0 : Int) ≤ (vni + (offset : Int)) % vlan_range := by
          apply Int.emod_nonneg
          rw [hR]; norm_num
        have hblt : (vni + (offset : Int)) % vlan_range < vlan_range := by
          apply Int.emod_lt_of_pos
          rw [hR]; norm_num
        have hnot : ((vni + (offset : Int)) % vlan_range) + VLAN_MIN
            ∉ s.free_pool := by
          apply hall
          · rw [hMin, hR]
            rw [hR] at hb0
            omega
          · rw [hMax, hMin, hR]
            rw [hR] at hblt
            omega
        rw [if_neg hnot]
    rw [hf]

theorem allocate_prefer_probe_exhaust_witness :
    ((VLAN_MIN ≤ (200 : Int) ∧ (200 : Int) ≤ VLAN_MAX ∧
        (200 : Int) ∈ c3s0.free_pool) →
      ∃ s', allocate c3s0 "net1" 200 = .ok (200, s')) ∧
    (¬(VLAN_MIN ≤ (200 : Int) ∧ (200 : Int) ≤ VLAN_MAX ∧
        (200 : Int) ∈ c3s0.free_pool) →
      ∀ v s', allocate c3s0 "net1" 200 = .ok (v, s') →
        probe_first c3s0 200 = some v) ∧
    ((∃ s', allocate c3s0 "net1" 200 = .error s') ↔
      ∀ v, VLAN_MIN ≤ v → v ≤ VLAN_MAX → v ∉ c3s0.free_pool) :=
  allocate_prefer_probe_exhaust c3s0 "net1" 200 rfl

end VlanManager

namespace EvpnParse

/-- Case analysis of the shared parser body. -/
theorem parse_ext_id_list_cases (loads : String → Option Json)
    (key : String) (ext_ids : List (String × String)) :
    (sget key ext_ids = none →
      parse_ext_id_list loads key ext_ids = Json.arr []) ∧
    (sget key ext_ids = some "" →
      parse_ext_id_list loads key ext_ids = Json.arr []) ∧
    (∀ s j, sget key ext_ids = some s → s ≠ "" → loads s = some j →
      parse_ext_id_list loads key ext_ids = j) ∧
    (∀ s, sget key ext_ids = some s → s ≠ "" → loads s = none →
      parse_ext_id_list loads key ext_ids = Json.arr [Json.str s]) := by
  refine ⟨?_, ?_, ?_, ?_⟩
  · intro h
    unfold parse_ext_id_list
    rw [h]
  · intro h
    unfold parse_ext_id_list
    rw [h]
    rfl
  · intro s j h hne hl
    unfold parse_ext_id_list
    rw [h]
    show (if s = "" then Json.arr [] else
      match loads s with
      | some j => j
      | none => Json.arr [Json.str s]) = j
    rw [if_neg hne, hl]
  · intro s h hne hl
    unfold parse_ext_id_list
    rw [h]
    show (if s = "" then Json.arr [] else
      match loads s with
      | some j => j
      | none => Json.arr [Json.str s]) = Json.arr [Json.str s]
    rw [if_neg hne, hl]

end EvpnParse

namespace EvpnParse

/-- Claim C6 (amended): each of the four EVPN attribute parsers returns
the empty list when its key is absent or holds the empty string, the
JSON-decoded value verbatim when the stored string parses as JSON (a
list whenever the stored JSON is an array, but a scalar JSON value is
returned as-is and is then not a list), and the singleton list holding
the raw string when JSON decoding fails. -/
theorem evpn_attribute_parser_behavior (loads : String → Option Json)
    (ext_ids : List (String × String)) :
    ∀ p ∈ [(parse_route_targets loads ext_ids, ROUTE_TARGETS_KEY),
           (parse_route_distinguishers loads ext_ids,
             ROUTE_DISTINGUISHERS_KEY),
           (parse_import_targets loads ext_ids, IMPORT_TARGETS_KEY),
           (parse_export_targets loads ext_ids, EXPORT_TARGETS_KEY)],
      (sget p.2 ext_ids = none → p.1 = Json.arr []) ∧
      (sget p.2 ext_ids = some "" → p.1 = Json.arr []) ∧
      (∀ s j, sget p.2 ext_ids = some s → s ≠ "" → loads s = some j →
        p.1 = j) ∧
      (∀ s, sget p.2 ext_ids = some s → s ≠ "" → loads s = none →
        p.1 = Json.arr [Json.str s]) := by
  intro p hp
  rcases List.mem_cons.mp hp with h | hp
  · exact h ▸ parse_ext_id_list_cases loads ROUTE_TARGETS_KEY ext_ids
  rcases List.mem_cons.mp hp with h | hp
  · exact h ▸ parse_ext_id_list_cases loads ROUTE_DISTINGUISHERS_KEY ext_ids
  rcases List.mem_cons.mp hp with h | hp
  · exact h ▸ parse_ext_id_list_cases loads IMPORT_TARGETS_KEY ext_ids
  rcases List.mem_cons.mp hp with h | hp
  · exact h ▸ parse_ext_id_list_cases loads EXPORT_TARGETS_KEY ext_ids
  · exact absurd hp (by simp)

/-- Witness: at a concrete `external_ids` carrying a JSON array, the
route-targets parser yields that array. -/
theorem evpn_attribute_parser_behavior_witness :
    parse_route_targets jsonLoadsModel c6ext
      = Json.arr [Json.str "64999:100", Json.str "64999:200"] :=
  (evpn_attribute_parser_behavior jsonLoadsModel c6ext
      (parse_route_targets jsonLoadsModel c6ext, ROUTE_TARGETS_KEY)
      (by simp)).2.2.1
    "[\"64999:100\", \"64999:200\"]"
    (Json.arr [Json.str "64999:100", Json.str "64999:200"])
    rfl (by decide) rfl

/-- Counterexample to C6 as stated: the stored string `"123"` is valid
JSON, so `json.loads` succeeds and the parser returns the JSON number
123 — which is not a list, contradicting the claim that every parser
"returns a list". -/
theorem parse_route_targets_scalar_counterexample :
    parse_route_targets jsonLoadsModel [(ROUTE_TARGETS_KEY, "123")]
        = Json.num 123 ∧
    (parse_route_targets jsonLoadsModel
        [(ROUTE_TARGETS_KEY, "123")]).isArr = false :=
  ⟨rfl, rfl⟩

end EvpnParse

namespace Frr

/-- Claim C7: the rendered add-vrf configuration contains
`rd <local_ip>:<vni>` when the RD list is empty and `rd <first RD>`
otherwise; both a `route-target import t` and a `route-target export t`
line for every t in `route_targets`; an extra `route-target export t`
line for every export-only target; and an extra `route-target import t`
line for every import-only target. -/
theorem add_vrf_rd_and_route_targets (e : EvpnInfo)
    (redistribute : List String) :
    (e.route_distinguishers = [] →
      ("    rd " ++ e.local_ip ++ ":" ++ toString e.vni)
        ∈ render_add_vrf e redistribute) ∧
    (∀ rd rest, e.route_distinguishers = rd :: rest →
      ("    rd " ++ rd) ∈ render_add_vrf e redistribute) ∧
    (∀ rt ∈ e.route_targets,
      ("    route-target import " ++ rt) ∈ render_add_vrf e redistribute ∧
      ("    route-target export " ++ rt) ∈ render_add_vrf e redistribute) ∧
    (∀ t ∈ e.export_targets,
      ("    route-target export " ++ t) ∈ render_add_vrf e redistribute) ∧
    (∀ t ∈ e.import_targets,
      ("    route-target import " ++ t) ∈ render_add_vrf e redistribute) := by
  have hrd_mem : rd_line e ∈ render_add_vrf e redistribute := by
    unfold render_add_vrf
    simp only [List.mem_append]
    exact Or.inl (Or.inl (Or.inl (Or.inl (Or.inl (Or.inl
      (Or.inr (List.mem_singleton_self _)))))))
  refine ⟨?_, ?_, ?_, ?_, ?_⟩
  · intro h
    have : rd_line e = "    rd " ++ e.local_ip ++ ":" ++ toString e.vni := by
      unfold rd_line
      rw [h]
    rw [← this]
    exact hrd_mem
  · intro rd rest h
    have : rd_line e = "    rd " ++ rd := by
      unfold rd_line
      rw [h]
    rw [← this]
    exact hrd_mem
  · intro rt hrt
    have himp : ("    route-target import " ++ rt) ∈ rt_lines e :=
      List.mem_flatMap.mpr ⟨rt, hrt, List.mem_cons_self _ _⟩
    have hexp : ("    route-target export " ++ rt) ∈ rt_lines e :=
      List.mem_flatMap.mpr ⟨rt, hrt,
        List.mem_cons_of_mem _ (List.mem_singleton_self _)⟩
    constructor <;>
    · unfold render_add_vrf
      simp only [List.mem_append]
      first
      | exact Or.inl (Or.inl (Or.inl (Or.inl (Or.inl (Or.inr himp)))))
      | exact Or.inl (Or.inl (Or.inl (Or.inl (Or.inl (Or.inr hexp)))))
  · intro t ht
    unfold render_add_vrf
    simp only [List.mem_append]
    exact Or.inl (Or.inl (Or.inl (Or.inl
      (Or.inr (List.mem_map.mpr ⟨t, ht, rfl⟩)))))
  · intro t ht
    unfold render_add_vrf
    simp only [List.mem_append]
    exact Or.inl (Or.inl (Or.inl
      (Or.inr (List.mem_map.mpr ⟨t, ht, rfl⟩))))

/-- Witness for C7 at `c7info`: the defaulted RD line and all four
route-target lines are present. -/
theorem add_vrf_rd_and_route_targets_witness :
    ("    rd " ++ "10.0.0.1" ++ ":" ++ toString (100 : Int))
        ∈ render_add_vrf c7info ["connected"] ∧
    ("    route-target import " ++ "64999:100")
        ∈ render_add_vrf c7info ["connected"] ∧
    ("    route-target export " ++ "64999:100")
        ∈ render_add_vrf c7info ["connected"] ∧
    ("    route-target export " ++ "64999:200")
        ∈ render_add_vrf c7info ["connected"] ∧
    ("    route-target import " ++ "64999:300")
        ∈ render_add_vrf c7info ["connected"] :=
  ⟨(add_vrf_rd_and_route_targets c7info ["connected"]).1 rfl,
   ((add_vrf_rd_and_route_targets c7info ["connected"]).2.2.1
      "64999:100" (by decide)).1,
   ((add_vrf_rd_and_route_targets c7info ["connected"]).2.2.1
      "64999:100" (by decide)).2,
   (add_vrf_rd_and_route_targets c7info ["connected"]).2.2.2.1
      "64999:200" (by decide),
   (add_vrf_rd_and_route_targets c7info ["connected"]).2.2.2.2
      "64999:300" (by decide)⟩

end Frr

namespace OvnEvpnHelper

/-- The loop never performs more queries than it has attempts left. -/
theorem retry_loop_queries_le (o : Oracle) :
    ∀ f a, (retry_loop o a f).2.1 ≤ f := by
  intro f
  induction f with
  | zero => intro a; simp [retry_loop]
  | succ f ih =>
    intro a
    unfold retry_loop
    cases hq : query_ovn_vlan_tag o a with
    | some v => simp
    | none =>
      simp only
      have := ih (a + 1)
      omega

/-- When every remaining attempt fails, the loop performs all of them,
sleeping after each but the last (`attempt < max_attempts - 1`). -/
theorem retry_loop_all_none (o : Oracle) :
    ∀ f a, a + f = max_attempts →
    (∀ i, a ≤ i → i < max_attempts → query_ovn_vlan_tag o i = none) →
    retry_loop o a f = (none, f, f - 1) := by
  intro f
  induction f with
  | zero => intro a _ _; rfl
  | succ f ih =>
    intro a ha h
    unfold retry_loop
    rw [h a (Nat.le_refl a) (by omega)]
    simp only
    rw [ih (a + 1) (by omega) (fun i hi hi2 => h i (by omega) hi2)]
    simp only
    have hmax : max_attempts = 10 := rfl
    rcases Nat.eq_zero_or_pos f with hf | hf
    · subst hf
      have : ¬(a < max_attempts - 1) := by omega
      rw [if_neg this]
    · have h1 : a < max_attempts - 1 := by omega
      rw [if_pos h1]
      have h2 : f - 1 + 1 = f := by omega
      have h3 : f + 1 - 1 = f := by omega
      rw [h2, h3]

/-- When the first success among the remaining attempts is at index `i`,
the loop stops there having made `i - a + 1` queries and `i - a`
sleeps. -/
theorem retry_loop_first_success (o : Oracle) :
    ∀ f a i v, a + f = max_attempts →
    a ≤ i → i < max_attempts → query_ovn_vlan_tag o i = some v →
    (∀ j, a ≤ j → j < i → query_ovn_vlan_tag o j = none) →
    retry_loop o a f = (some v, i - a + 1, i - a) := by
  intro f
  induction f with
  | zero => intro a i v ha hai hi _ _; omega
  | succ f ih =>
    intro a i v ha hai hi hq hprev
    unfold retry_loop
    rcases Nat.eq_or_lt_of_le hai with heq | hlt
    · subst heq
      rw [hq]
      simp
    · rw [hprev a (Nat.le_refl a) hlt]
      simp only
      rw [ih (a + 1) i v (by omega) (by omega) hi hq
        (fun j hj hj2 => hprev j (by omega) hj2)]
      simp only
      have hgap : a < max_attempts - 1 := by omega
      rw [if_pos hgap]
      have h2 : i - (a + 1) + 1 = i - a := by omega
      rw [h2]

/-- If the loop comes back empty every remaining attempt failed. -/
theorem retry_loop_none_all (o : Oracle) :
    ∀ f a q s, retry_loop o a f = (none, q, s) →
    ∀ i, a ≤ i → i < a + f → query_ovn_vlan_tag o i = none := by
  intro f
  induction f with
  | zero => intro a q s _ i h1 h2; omega
  | succ f ih =>
    intro a q s hr i h1 h2
    unfold retry_loop at hr
    cases hq : query_ovn_vlan_tag o a with
    | some v => rw [hq] at hr; exact absurd hr (by simp)
    | none =>
      rw [hq] at hr
      simp only [Prod.mk.injEq] at hr
      rcases Nat.eq_or_lt_of_le h1 with heq | hlt
      · subst heq; exact hq
      · rcases hr' : retry_loop o (a + 1) f with ⟨r₁, q₁, s₁⟩
        cases r₁ with
        | some w =>
          rw [hr'] at hr
          simp at hr
        | none =>
          exact ih (a + 1) q₁ s₁ hr' i hlt (by omega)

end OvnEvpnHelper

namespace OvnEvpnHelper

/-- Claim C8: for a network id missing from the cache,
`get_ovn_vlan_tag` queries at most 10 times; it raises `PortNotFound`
exactly when all 10 attempts yield no tag (after 10 queries and 9
one-second gaps, leaving the cache untouched); a first success on
attempt `i` returns that tag after `i+1` queries and `i` sleeps and
stores it in the cache; and once stored, any later call for the same
network id returns the cached tag with zero queries and zero sleeps. -/
theorem get_ovn_vlan_tag_retry_and_cache (cache : List (String × Int))
    (network_id : String) (o : Oracle)
    (hmiss : VlanManager.alookup network_id cache = none) :
    (get_ovn_vlan_tag cache network_id o).queries ≤ max_attempts ∧
    ((get_ovn_vlan_tag cache network_id o).result = .error () ↔
      ∀ i, i < max_attempts → query_ovn_vlan_tag o i = none) ∧
    ((∀ i, i < max_attempts → query_ovn_vlan_tag o i = none) →
      get_ovn_vlan_tag cache network_id o =
        ⟨.error (), cache, max_attempts, max_attempts - 1⟩) ∧
    (∀ i v, i < max_attempts → query_ovn_vlan_tag o i = some v →
      (∀ j, j < i → query_ovn_vlan_tag o j = none) →
      get_ovn_vlan_tag cache network_id o =
        ⟨.ok v, (network_id, v) :: cache, i + 1, i⟩) ∧
    (∀ v, (get_ovn_vlan_tag cache network_id o).result = .ok v →
      ∀ o₂, get_ovn_vlan_tag
          (get_ovn_vlan_tag cache network_id o).cache network_id o₂ =
        ⟨.ok v, (get_ovn_vlan_tag cache network_id o).cache, 0, 0⟩) := by
  have hbase : get_ovn_vlan_tag cache network_id o =
      (match retry_loop o 0 max_attempts with
      | (some v, q, s) => ⟨.ok v, (network_id, v) :: cache, q, s⟩
      | (none, q, s) => ⟨.error (), cache, q, s⟩) := by
    unfold get_ovn_vlan_tag
    rw [hmiss]
  rcases hloop : retry_loop o 0 max_attempts with ⟨r₁, q, s⟩
  rw [hloop] at hbase
  refine ⟨?_, ?_, ?_, ?_, ?_⟩
  · have hq := retry_loop_queries_le o max_attempts 0
    rw [hloop] at hq
    cases r₁ <;> simp [hbase] <;> exact hq
  · cases r₁ with
    | none =>
      simp only [hbase]
      constructor
      · intro _ i hi
        exact retry_loop_none_all o max_attempts 0 q s hloop i
          (Nat.zero_le i) (by omega)
      · intro _
        trivial
    | some v =>
      simp only [hbase]
      constructor
      · intro h
        exact absurd h (by simp)
      · intro hall
        have := retry_loop_all_none o max_attempts 0 rfl
          (fun i _ hi => hall i hi)
        rw [hloop] at this
        exact absurd this (by simp)
  · intro hall
    have := retry_loop_all_none o max_attempts 0 rfl
      (fun i _ hi => hall i hi)
    rw [hloop] at this
    cases r₁ with
    | some v => exact absurd this (by simp)
    | none =>
      simp only [Prod.mk.injEq] at this
      rw [hbase, this.2.1, this.2.2]
  · intro i v hi hq hprev
    have := retry_loop_first_success o max_attempts 0 i v rfl
      (Nat.zero_le i) hi hq (fun j _ hj => hprev j hj)
    rw [hloop] at this
    simp only [Prod.mk.injEq] at this
    rw [hbase, this.1, this.2.1, this.2.2]
    simp
  · intro v hres o₂
    cases r₁ with
    | none =>
      rw [hbase] at hres
      exact absurd hres (by simp)
    | some w =>
      rw [hbase] at hres ⊢
      simp only at hres ⊢
      have hw : w = v := Except.ok.injEq .. ▸ hres
      subst hw
      unfold get_ovn_vlan_tag
      rw [VlanManager.alookup_cons]
      simp

/-- Witness for C8: the spec's S5 scenario — strategies fail on attempts
0-2, Strategy A returns `[7]` on attempt 3 — applied to an empty
cache. -/
theorem get_ovn_vlan_tag_retry_and_cache_witness :
    (get_ovn_vlan_tag [] "net1" s5Oracle).queries ≤ max_attempts ∧
    ((get_ovn_vlan_tag [] "net1" s5Oracle).result = .error () ↔
      ∀ i, i < max_attempts → query_ovn_vlan_tag s5Oracle i = none) ∧
    ((∀ i, i < max_attempts → query_ovn_vlan_tag s5Oracle i = none) →
      get_ovn_vlan_tag [] "net1" s5Oracle =
        ⟨.error (), [], max_attempts, max_attempts - 1⟩) ∧
    (∀ i v, i < max_attempts → query_ovn_vlan_tag s5Oracle i = some v →
      (∀ j, j < i → query_ovn_vlan_tag s5Oracle j = none) →
      get_ovn_vlan_tag [] "net1" s5Oracle =
        ⟨.ok v, ("net1", v) :: [], i + 1, i⟩) ∧
    (∀ v, (get_ovn_vlan_tag [] "net1" s5Oracle).result = .ok v →
      ∀ o₂, get_ovn_vlan_tag
          (get_ovn_vlan_tag [] "net1" s5Oracle).cache "net1" o₂ =
        ⟨.ok v, (get_ovn_vlan_tag [] "net1" s5Oracle).cache, 0, 0⟩) :=
  get_ovn_vlan_tag_retry_and_cache [] "net1" s5Oracle rfl

end OvnEvpnHelper

namespace FdbManager

theorem getd_cons (b : String) (p : String × List (String × Int))
    (t : FdbSt) :
    getd b (p :: t) = if p.1 = b then p.2 else getd b t := by
  obtain ⟨a, es⟩ := p; rfl

theorem setd_cons (b : String) (v : List (String × Int))
    (p : String × List (String × Int)) (t : FdbSt) :
    setd b v (p :: t) =
      if p.1 = b then (b, v) :: t else p :: setd b v t := by
  obtain ⟨a, es⟩ := p; rfl

theorem deld_cons (b : String) (p : String × List (String × Int))
    (t : FdbSt) :
    deld b (p :: t) = if p.1 = b then deld b t else p :: deld b t := by
  by_cases h : p.1 = b <;> simp [deld, List.filter_cons, h]

theorem getd_setd_self (b : String) (v : List (String × Int)) (s : FdbSt) :
    getd b (setd b v s) = v := by
  induction s with
  | nil => simp [setd, getd]
  | cons p t ih =>
    rw [setd_cons]
    by_cases h : p.1 = b
    · rw [if_pos h, getd_cons, if_pos rfl]
    · rw [if_neg h, getd_cons, if_neg h, ih]

theorem getd_setd_ne {b b₀ : String} (v : List (String × Int)) (s : FdbSt)
    (hne : b₀ ≠ b) : getd b (setd b₀ v s) = getd b s := by
  induction s with
  | nil => simp [setd, getd, hne]
  | cons p t ih =>
    rw [setd_cons, getd_cons]
    by_cases h : p.1 = b₀
    · have h2 : p.1 ≠ b := by rw [h]; exact hne
      rw [if_pos h, if_neg h2, getd_cons, if_neg hne]
    · rw [if_neg h, getd_cons, ih]

theorem getd_deld_self (b : String) (s : FdbSt) :
    getd b (deld b s) = [] := by
  induction s with
  | nil => rfl
  | cons p t ih =>
    rw [deld_cons]
    by_cases h : p.1 = b
    · rw [if_pos h]; exact ih
    · rw [if_neg h, getd_cons, if_neg h]; exact ih

theorem getd_deld_ne {b d : String} (s : FdbSt) (hne : d ≠ b) :
    getd b (deld d s) = getd b s := by
  induction s with
  | nil => rfl
  | cons p t ih =>
    rw [deld_cons, getd_cons]
    by_cases h : p.1 = d
    · have h2 : p.1 ≠ b := by rw [h]; exact hne
      rw [if_pos h, if_neg h2, ih]
    · rw [if_neg h, getd_cons, ih]

/-- Per-call effect of the shared insert logic on the recorded set. -/
theorem mem_getd_insert_step (s : FdbSt) (m : String) (v : Int)
    (b₀ b : String) (r : KRes) (k : String × Int) :
    k ∈ getd b (fdb_insert_step s m v b₀ r).1 ↔
      (b₀ = b ∧ (m, v) = k ∧ r = .ok) ∨ k ∈ getd b s := by
  unfold fdb_insert_step
  by_cases hmem : (m, v) ∈ getd b₀ s
  · rw [if_pos hmem]
    simp only
    constructor
    · intro h; exact Or.inr h
    · rintro (⟨hb, hk, -⟩ | h)
      · subst hb; rw [← hk]; exact hmem
      · exact h
  · rw [if_neg hmem]
    cases r with
    | ok =>
      simp only
      by_cases hb : b₀ = b
      · subst hb
        rw [getd_setd_self]
        constructor
        · intro h
          rcases List.mem_append.mp h with h | h
          · exact Or.inr h
          · have hk : k = (m, v) := List.mem_singleton.mp h
            exact Or.inl ⟨rfl, hk.symm, trivial⟩
        · rintro (⟨-, hk, -⟩ | h)
          · exact List.mem_append.mpr
              (Or.inr (List.mem_singleton.mpr hk.symm))
          · exact List.mem_append.mpr (Or.inl h)
      · rw [getd_setd_ne _ _ hb]
        simp [hb]
    | errExists => simp
    | errOther => simp

/-- Batch over a list of entries: recorded afterwards iff recorded
before or some entry carries a raising-nothing insert of the key. -/
theorem mem_getd_batch_core (b₀ b : String) (k : String × Int) :
    ∀ (es : List (String × Int × KRes)) (s : FdbSt),
    k ∈ getd b (batch_core s b₀ es).1 ↔
      (b₀ = b ∧ (k.1, k.2, KRes.ok) ∈ es) ∨ k ∈ getd b s := by
  intro es
  induction es with
  | nil => intro s; simp [batch_core]
  | cons e rest ih =>
    intro s
    obtain ⟨m, v, r⟩ := e
    unfold batch_core
    simp only
    rw [ih, mem_getd_insert_step]
    constructor
    · rintro (⟨hb, hin⟩ | ⟨hb, hk, hr⟩ | h)
      · exact Or.inl ⟨hb, List.mem_cons_of_mem _ hin⟩
      · subst hr
        refine Or.inl ⟨hb, ?_⟩
        rw [← hk]
        exact List.mem_cons_self _ _
      · exact Or.inr h
    · rintro (⟨hb, hin⟩ | h)
      · rcases List.mem_cons.mp hin with he | hin
        · refine Or.inr (Or.inl ⟨hb, ?_, ?_⟩)
          · rw [Prod.ext_iff] at he
            obtain ⟨h1, h2⟩ := he
            rw [Prod.ext_iff] at h2
            exact Prod.ext h1.symm h2.1.symm
          · rw [Prod.ext_iff] at he
            obtain ⟨-, h2⟩ := he
            rw [Prod.ext_iff] at h2
            exact h2.2.symm
        · exact Or.inl ⟨hb, hin⟩
      · exact Or.inr (Or.inr h)

/-- Per-op effect on the recorded set (feature flag enabled). -/
theorem mem_getd_step (s : FdbSt) (op : Op) (b : String)
    (k : String × Int) :
    k ∈ getd b (stepOp true s op) ↔
      opHasOkInsert b k op ∨ (k ∈ getd b s ∧ ¬opCleans b op) := by
  cases op with
  | ensure m v b' r =>
    show k ∈ getd b (fdb_insert_step s m v b' r).1 ↔ _
    rw [mem_getd_insert_step]
    simp [opHasOkInsert, opCleans]
  | batch es b' =>
    show k ∈ getd b (batch_core s b' es).1 ↔ _
    rw [mem_getd_batch_core]
    simp [opHasOkInsert, opCleans]
  | cleanup d =>
    show k ∈ getd b (deld d s) ↔ _
    by_cases h : d = b
    · subst h
      rw [getd_deld_self]
      simp [opHasOkInsert, opCleans]
    · rw [getd_deld_ne _ h]
      simp [opHasOkInsert, opCleans, h]

/-- History-level characterization, generalized over the start state. -/
theorem mem_getd_run_from (b : String) (k : String × Int) :
    ∀ (ops : List Op) (s : FdbSt),
    k ∈ getd b (ops.foldl (stepOp true) s) ↔
      OkInsertNoLaterCleanup b k ops ∨
        (k ∈ getd b s ∧ ∀ o ∈ ops, ¬opCleans b o) := by
  intro ops
  induction ops with
  | nil => intro s; simp [OkInsertNoLaterCleanup]
  | cons op rest ih =>
    intro s
    show k ∈ getd b (rest.foldl (stepOp true) (stepOp true s op)) ↔ _
    rw [ih, mem_getd_step]
    rw [show OkInsertNoLaterCleanup b k (op :: rest) =
      ((opHasOkInsert b k op ∧ ∀ o ∈ rest, ¬opCleans b o) ∨
        OkInsertNoLaterCleanup b k rest) from rfl]
    constructor
    · rintro (h | ⟨(h1 | ⟨h2, h3⟩), h4⟩)
      · exact Or.inl (Or.inr h)
      · exact Or.inl (Or.inl ⟨h1, h4⟩)
      · refine Or.inr ⟨h2, ?_⟩
        intro o ho
        rcases List.mem_cons.mp ho with rfl | ho
        · exact h3
        · exact h4 o ho
    · rintro ((⟨h1, h2⟩ | h) | ⟨h1, h2⟩)
      · exact Or.inr ⟨Or.inl h1, h2⟩
      · exact Or.inl h
      · refine Or.inr ⟨Or.inr ⟨h1, h2 op (List.mem_cons_self _ _)⟩, ?_⟩
        intro o ho
        exact h2 o (List.mem_cons_of_mem _ ho)

end FdbManager

namespace FdbManager

/-- Claim C5 (amended): with the `evpn_static_fdb` flag on, a key
`(mac, vlan)` is recorded for a bridge after a call history iff some
kernel FDB insert for it raised nothing — an "already exists" kernel
error is silently swallowed but does NOT record the key — with no later
`cleanup_device` for that bridge; and `ensure_fdb_entry` attempts the
kernel insert exactly when the key is not already recorded for the
bridge. -/
theorem fdb_recorded_iff_ok_insert (ops : List Op) (b : String)
    (k : String × Int) :
    (k ∈ getd b (runOps true ops) ↔ OkInsertNoLaterCleanup b k ops) ∧
    (∀ s m v r, (ensure_fdb_entry true s m v b r).2 ≠ [] →
      (m, v) ∉ getd b s) ∧
    (∀ s m v r, (m, v) ∉ getd b s →
      (ensure_fdb_entry true s m v b r).2 = [(m, v)]) := by
  refine ⟨?_, ?_, ?_⟩
  · unfold runOps
    rw [mem_getd_run_from]
    simp [getd]
  · intro s m v r h hmem
    apply h
    show (fdb_insert_step s m v b r).2 = []
    unfold fdb_insert_step
    rw [if_pos hmem]
  · intro s m v r hmem
    show (fdb_insert_step s m v b r).2 = [(m, v)]
    unfold fdb_insert_step
    rw [if_neg hmem]
    cases r <;> rfl

/-- Witness for C5 at a concrete history: a successful insert followed
by an unrelated cleanup leaves the key recorded. -/
theorem fdb_recorded_iff_ok_insert_witness :
    (("aa:bb:cc:dd:ee:01", (100 : Int)) ∈ getd "br-evpn"
        (runOps true [Op.ensure "aa:bb:cc:dd:ee:01" 100 "br-evpn" .ok,
                      Op.cleanup "br-other"]) ↔
      OkInsertNoLaterCleanup "br-evpn" ("aa:bb:cc:dd:ee:01", 100)
        [Op.ensure "aa:bb:cc:dd:ee:01" 100 "br-evpn" .ok,
         Op.cleanup "br-other"]) ∧
    (∀ s m v r,
      (ensure_fdb_entry true s m v "br-evpn" r).2 ≠ [] →
      (m, v) ∉ getd "br-evpn" s) ∧
    (∀ s m v r, (m, v) ∉ getd "br-evpn" s →
      (ensure_fdb_entry true s m v "br-evpn" r).2 = [(m, v)]) :=
  fdb_recorded_iff_ok_insert
    [Op.ensure "aa:bb:cc:dd:ee:01" 100 "br-evpn" .ok,
     Op.cleanup "br-other"] "br-evpn" ("aa:bb:cc:dd:ee:01", 100)

/-- Counterexample to C5 as stated: when the kernel reports
"File exists" the insert "completed as a success" in the claim's sense,
yet the key is not recorded — fdb_manager.py only appends after a
raise-free `add_bridge_fdb` (line 46), and the `except` path (48-50)
never appends. -/
theorem fdb_exists_counts_as_success_counterexample :
    ¬ ((("aa:bb:cc:dd:ee:01", (100 : Int)) ∈ getd "br-evpn"
        (runOps true c5trace)) ↔
      ClaimSuccessNoLaterCleanup "br-evpn" ("aa:bb:cc:dd:ee:01", 100)
        c5trace) := by
  intro h
  have hrhs : ClaimSuccessNoLaterCleanup "br-evpn"
      ("aa:bb:cc:dd:ee:01", 100) c5trace :=
    Or.inl ⟨⟨rfl, rfl, Or.inr rfl⟩, fun o ho => absurd ho (by simp)⟩
  have hmem := h.mpr hrhs
  revert hmem
  decide

end FdbManager

namespace NetManager

theorem kernel_rollback_one (s : ExecSt) (r : RKind × String) :
    (rollback_one s r).kernel = s.kernel.filter (fun d => d ≠ r.2) := by
  obtain ⟨k, n⟩ := r
  cases k <;> rfl

theorem created_rollback_one (s : ExecSt) (r : RKind × String) :
    (rollback_one s r).created = s.created := by
  obtain ⟨k, n⟩ := r
  cases k <;> rfl

/-- Rollback steps never re-create a kernel device. -/
theorem rollback_fold_no_new (x : String) :
    ∀ (rs : List (RKind × String)) (s : ExecSt), x ∉ s.kernel →
    x ∉ (rs.foldl rollback_one s).kernel := by
  intro rs
  induction rs with
  | nil => intro s h; exact h
  | cons a t ih =>
    intro s h
    apply ih
    rw [kernel_rollback_one]
    intro hc
    exact h (List.mem_of_mem_filter hc)

/-- Every resource on the walked list is absent from the kernel after
the walk. -/
theorem rollback_fold_removes :
    ∀ (rs : List (RKind × String)) (s : ExecSt) (r : RKind × String),
    r ∈ rs → r.2 ∉ (rs.foldl rollback_one s).kernel := by
  intro rs
  induction rs with
  | nil => intro s r h; exact absurd h (List.not_mem_nil r)
  | cons a t ih =>
    intro s r hr
    rw [List.foldl_cons]
    rcases List.mem_cons.mp hr with rfl | hr
    · apply rollback_fold_no_new
      rw [kernel_rollback_one]
      intro hc
      have h2 := List.of_mem_filter hc
      simp at h2
    · exact ih (rollback_one s a) r hr

theorem rollback_resources_created (s : ExecSt) :
    (rollback_resources s).created = s.created := by
  unfold rollback_resources
  generalize s.created.reverse = rs
  induction rs generalizing s with
  | nil => rfl
  | cons a t ih =>
    show ((t.foldl rollback_one (rollback_one s a))).created = s.created
    rw [ih (rollback_one s a), created_rollback_one]

end NetManager

namespace NetManager

/-- Claim C2 (amended): whenever `ensure_infrastructure` returns
failure, every resource that completed its multi-step creation and was
appended to the rollback list has been destroyed by walking that list
in reverse creation order (kernel deletions, best-effort in the source,
modeled as succeeding) — none of the registered resources remain in the
kernel.  A resource whose creation was interrupted after its kernel
create call but before registration may remain (see the
counterexample). -/
theorem ensure_infrastructure_rollback_registered (conf : Conf)
    (oracle : Nat → Bool) (net : NetworkInfo) (gwIps : List String)
    (st0 : ExecSt) (s' : ExecSt)
    (h : ensure_infrastructure conf oracle net gwIps st0 = (false, s')) :
    ∀ r ∈ s'.created, r.2 ∉ s'.kernel := by
  have h' : (match ensure_body conf oracle net gwIps
      { st0 with created := [], createdGhost := [], callIdx := 0 } with
    | Except.ok p => (true, p.2)
    | Except.error s_f => (false, rollback_resources s_f)) = (false, s') := h
  cases hbody : ensure_body conf oracle net gwIps
      { st0 with created := [], createdGhost := [], callIdx := 0 } with
  | ok p => rw [hbody] at h'; exact absurd h' (by simp)
  | error s_f =>
    rw [hbody] at h'
    simp only [Prod.mk.injEq, true_and] at h'
    subst h'
    intro r hr
    rw [rollback_resources_created] at hr
    unfold rollback_resources
    exact rollback_fold_removes s_f.created.reverse s_f r
      (List.mem_reverse.mpr hr)

/-- Witness for C2: the 13th call fails while building the IRB; the
registered VRF and VXLAN devices are gone afterwards. -/
theorem ensure_infrastructure_rollback_registered_witness :
    "vrf-100" ∉
      (ensure_infrastructure c2conf c2oracleB c2net [] c2st0).2.kernel ∧
    "vxlan-100" ∉
      (ensure_infrastructure c2conf c2oracleB c2net [] c2st0).2.kernel :=
  ⟨ensure_infrastructure_rollback_registered c2conf c2oracleB c2net []
      c2st0 (ensure_infrastructure c2conf c2oracleB c2net [] c2st0).2
      (by rfl) (RKind.vrf, "vrf-100") (by decide),
   ensure_infrastructure_rollback_registered c2conf c2oracleB c2net []
      c2st0 (ensure_infrastructure c2conf c2oracleB c2net [] c2st0).2
      (by rfl) (RKind.vxlan, "vxlan-100") (by decide)⟩

/-- Counterexample to C2 as stated: when `set_device_status(vrf, 'up')`
(the second external call) fails, the kernel VRF created one call
earlier was not yet on the rollback list and survives the failed call,
so a resource created during the call does remain. -/
theorem ensure_infrastructure_partial_creation_leak :
    (ensure_infrastructure c2conf c2oracle c2net [] c2st0).1 = false ∧
    "vrf-100" ∈
      (ensure_infrastructure c2conf c2oracle c2net [] c2st0).2.createdGhost ∧
    "vrf-100" ∈
      (ensure_infrastructure c2conf c2oracle c2net [] c2st0).2.kernel :=
  ⟨rfl, by decide, by decide⟩

end NetManager

namespace EvpnDriver

theorem d_ensure_fdb_proj (conf : DriverConf) (o : SyncOracle)
    (st : DriverSt) (mac : String) (vlan : Int) :
    (d_ensure_fdb conf o st mac vlan).evpn_networks = st.evpn_networks ∧
    (d_ensure_fdb conf o st mac vlan).evpn_vrfs = st.evpn_vrfs := by
  unfold d_ensure_fdb
  by_cases hf : conf.evpn_static_fdb = true
  · rw [if_pos hf]
    by_cases hm : (mac, vlan) ∈
        FdbManager.getd conf.evpn_bridge st.bridge_fdb_entries
    · rw [if_pos hm]
      exact ⟨rfl, rfl⟩
    · rw [if_neg hm]
      cases o.fdbRes mac vlan <;> exact ⟨rfl, rfl⟩
  · rw [if_neg hf]
    exact ⟨rfl, rfl⟩

theorem d_ensure_neighbor_proj (conf : DriverConf) (o : SyncOracle)
    (st : DriverSt) (ip mac irb : String) :
    (d_ensure_neighbor conf o st ip mac irb).evpn_networks
        = st.evpn_networks ∧
    (d_ensure_neighbor conf o st ip mac irb).evpn_vrfs
        = st.evpn_vrfs := by
  unfold d_ensure_neighbor
  by_cases hf : conf.evpn_static_neighbors = true
  · rw [if_pos hf]
    by_cases hm : (ip, mac) ∈ ngetd irb st.static_neighbors
    · rw [if_pos hm]
      exact ⟨rfl, rfl⟩
    · rw [if_neg hm]
      cases o.neighRes ip mac <;> exact ⟨rfl, rfl⟩
  · rw [if_neg hf]
    exact ⟨rfl, rfl⟩

theorem seed_fdb_proj (conf : DriverConf) (o : SyncOracle)
    (st : DriverSt) (mac : String) (info : BuiltInfo) :
    (seed_fdb conf o st mac info).evpn_networks = st.evpn_networks ∧
    (seed_fdb conf o st mac info).evpn_vrfs = st.evpn_vrfs := by
  unfold seed_fdb
  by_cases h : otruthy info.l2vni = true
  · rw [if_pos h]
    exact d_ensure_fdb_proj conf o st mac info.vlan_id
  · rw [if_neg h]
    exact ⟨rfl, rfl⟩

theorem neighbor_fold_proj (conf : DriverConf) (o : SyncOracle)
    (mac irb : String) :
    ∀ (ips : List String) (st : DriverSt),
    ((ips.foldl (fun acc ip => d_ensure_neighbor conf o acc ip mac irb)
        st)).evpn_networks = st.evpn_networks ∧
    ((ips.foldl (fun acc ip => d_ensure_neighbor conf o acc ip mac irb)
        st)).evpn_vrfs = st.evpn_vrfs := by
  intro ips
  induction ips with
  | nil => intro st; exact ⟨rfl, rfl⟩
  | cons ip rest ih =>
    intro st
    rw [List.foldl_cons]
    have h1 := d_ensure_neighbor_proj conf o st ip mac irb
    have h2 := ih (d_ensure_neighbor conf o st ip mac irb)
    exact ⟨h2.1.trans h1.1, h2.2.trans h1.2⟩

theorem seed_neighbors_proj (conf : DriverConf) (o : SyncOracle)
    (st : DriverSt) (mac : String) (ips : List String)
    (info : BuiltInfo) :
    (seed_neighbors conf o st mac ips info).evpn_networks
        = st.evpn_networks ∧
    (seed_neighbors conf o st mac ips info).evpn_vrfs
        = st.evpn_vrfs := by
  unfold seed_neighbors
  by_cases h : info.l3vni.isSome ∧ ips ≠ []
  · rw [if_pos h]
    exact neighbor_fold_proj conf o mac _ ips st
  · rw [if_neg h]
    exact ⟨rfl, rfl⟩

theorem sync_port_body_proj (conf : DriverConf) (o : SyncOracle)
    (st : DriverSt) (nid : String) (info : BuiltInfo) (lp : String)
    (mac_ips : List String) :
    (sync_port_body conf o st nid info lp mac_ips).evpn_networks
        = st.evpn_networks ∧
    (sync_port_body conf o st nid info lp mac_ips).evpn_vrfs
        = st.evpn_vrfs := by
  cases mac_ips with
  | nil => exact ⟨rfl, rfl⟩
  | cons mac ips =>
    have hseed := seed_fdb_proj conf o st mac info
    have hneigh := seed_neighbors_proj conf o
      (seed_fdb conf o st mac info) mac ips info
    exact ⟨hneigh.1.trans hseed.1, hneigh.2.trans hseed.2⟩

theorem sync_port_proj (conf : DriverConf) (o : SyncOracle)
    (st : DriverSt) (nid : String) (info : BuiltInfo) (p : PortBinding) :
    (sync_port conf o st nid info p).evpn_networks = st.evpn_networks ∧
    (sync_port conf o st nid info p).evpn_vrfs = st.evpn_vrfs := by
  unfold sync_port
  by_cases h1 : p.mac = [] ∨ p.mac = ["unknown"]
  · rw [if_pos h1]
    exact ⟨rfl, rfl⟩
  · rw [if_neg h1]
    cases hm : p.mac with
    | nil => exact ⟨rfl, rfl⟩
    | cons m0 rest =>
      exact sync_port_body_proj conf o st nid info p.logical_port
        (pysplit m0)

theorem sync_port_fold_proj (conf : DriverConf) (o : SyncOracle)
    (nid : String) (info : BuiltInfo) :
    ∀ (ps : List PortBinding) (st : DriverSt),
    ((ps.foldl (fun acc p => sync_port conf o acc nid info p) st)).evpn_networks
        = st.evpn_networks ∧
    ((ps.foldl (fun acc p => sync_port conf o acc nid info p) st)).evpn_vrfs
        = st.evpn_vrfs := by
  intro ps
  induction ps with
  | nil => intro st; exact ⟨rfl, rfl⟩
  | cons p rest ih =>
    intro st
    rw [List.foldl_cons]
    have h1 := sync_port_proj conf o st nid info p
    have h2 := ih (sync_port conf o st nid info p)
    exact ⟨h2.1.trans h1.1, h2.2.trans h1.2⟩

theorem sync_network_body_proj (conf : DriverConf) (o : SyncOracle)
    (st : DriverSt) (nid : String) (ports : List PortBinding)
    (binfo : Option BuiltInfo) :
    (sync_network_body conf o st nid ports binfo).evpn_networks
        = st.evpn_networks ++ rebuilt_body o nid binfo ∧
    (sync_network_body conf o st nid ports binfo).evpn_vrfs
        = st.evpn_vrfs := by
  cases binfo with
  | none => simp [sync_network_body, rebuilt_body]
  | some info =>
    simp only [sync_network_body, rebuilt_body]
    by_cases he : o.ensureInfra nid = true
    · rw [if_pos he, if_pos he]
      have hfold := sync_port_fold_proj conf o nid info ports
        { st with evpn_networks := st.evpn_networks ++ [(nid, info)] }
      exact ⟨hfold.1, hfold.2⟩
    · rw [if_neg he, if_neg he]
      simp

/-- One group contributes exactly its `rebuilt_group` entry to
`evpn_networks` (appended), leaving `evpn_vrfs` alone. -/
theorem sync_network_proj (conf : DriverConf) (o : SyncOracle)
    (st : DriverSt) (g : String × List PortBinding) :
    (sync_network conf o st g).evpn_networks
        = st.evpn_networks ++ rebuilt_group o g ∧
    (sync_network conf o st g).evpn_vrfs = st.evpn_vrfs := by
  cases hg : g.2 with
  | nil =>
    unfold sync_network rebuilt_group
    rw [hg]
    simp
  | cons p0 rest =>
    unfold sync_network rebuilt_group
    rw [hg]
    exact sync_network_body_proj conf o st g.1 (p0 :: rest)
      (o.buildInfo g.1 p0)

theorem sync_network_fold_proj (conf : DriverConf) (o : SyncOracle) :
    ∀ (gs : List (String × List PortBinding)) (st : DriverSt),
    ((gs.foldl (sync_network conf o) st)).evpn_networks
        = st.evpn_networks ++ gs.flatMap (rebuilt_group o) ∧
    ((gs.foldl (sync_network conf o) st)).evpn_vrfs = st.evpn_vrfs := by
  intro gs
  induction gs with
  | nil => intro st; simp
  | cons g rest ih =>
    intro st
    rw [List.foldl_cons]
    have h1 := sync_network_proj conf o st g
    have h2 := ih (sync_network conf o st g)
    constructor
    · rw [h2.1, h1.1, List.flatMap_cons, List.append_assoc]
    · exact h2.2.trans h1.2

end EvpnDriver

namespace EvpnDriver

/-- Claim C1 (amended): `sync` never raises — every fallible
sub-operation (the row query, per-network info building, per-network
infrastructure setup, per-port kernel seeding) catches its own
exceptions — and instead of restoring any snapshot it unconditionally
resets `evpn_networks` and rebuilds it from the current query outcome
alone: after any sync, failed or not, `evpn_networks` holds exactly the
networks successfully rebuilt in this pass (a pure function of the
oracle, independent of the pre-sync map), while `evpn_vrfs` is carried
through untouched. -/
theorem sync_contains_failures_and_rebuilds (conf : DriverConf)
    (st : DriverSt) (o : SyncOracle) :
    ∃ st', sync conf st o = .ok st' ∧
      st'.evpn_networks = sync_rebuilt o ∧
      st'.evpn_vrfs = st.evpn_vrfs := by
  refine ⟨_, rfl, ?_, ?_⟩
  · show ((group_by_datapath (get_evpn_ports o)).foldl (sync_network conf o)
      { st with evpn_networks := [], evpn_ports := []
                bridge_fdb_entries := [], static_neighbors := [] }).evpn_networks
      = sync_rebuilt o
    rw [(sync_network_fold_proj conf o _ _).1]
    rfl
  · show ((group_by_datapath (get_evpn_ports o)).foldl (sync_network conf o)
      { st with evpn_networks := [], evpn_ports := []
                bridge_fdb_entries := [], static_neighbors := [] }).evpn_vrfs
      = st.evpn_vrfs
    rw [(sync_network_fold_proj conf o _ _).2]

/-- Counterexample to C1 as stated: a sync whose database query raises
(the failure is caught at ovn_evpn_driver.py 305-306) completes without
re-raising and leaves `evpn_networks` empty — not the pre-sync
snapshot, which held one network.  The source `sync` (247-290) takes no
snapshot and has no `try`/`except`/re-raise at all. -/
theorem sync_failure_not_restored_counterexample :
    c1oracle.dbResult = Except.error () ∧
    sync c1conf c1st c1oracle = Except.ok
      { evpn_networks := [], evpn_ports := [], bridge_fdb_entries := []
        static_neighbors := [], evpn_vrfs := ["vrf-100"] } ∧
    c1st.evpn_networks = [("net-old", ⟨200, none, some 100⟩)] ∧
    ([] : List (String × BuiltInfo)) ≠ c1st.evpn_networks :=
  ⟨rfl, rfl, rfl, by decide⟩

end EvpnDriver
